import Mathlib

/-!
Verification of the workflow orchestrator of the RAG-LangGraph building-Q&A
system (`src/app/tools/graph.py` and the node modules it drives).

The Python code is shallowly embedded: every handler and router is a Lean
function translated from the source; Python code that may raise is embedded in
the `Except PyErr` monad, with `try`/`except` blocks becoming `match`es on the
`Except` value.  External collaborator effects (the LLM round-trips, the file
system, the FAISS index, the RDF engine, the wall clock) are supplied as oracle
records, so a theorem quantifying over oracles covers every behaviour of the
collaborators while all orchestration logic is taken from the source.
-/

namespace RagGraph

/-- Python exception classes that the embedded code can raise. -/
inductive PyErr where
  | attributeError
  | keyError
  | typeError
  | valueError
  | indexError
  | runtimeError
  | genericError
deriving DecidableEq

/-- Message rendering for an exception, standing in for Python's `f"{e}"`. -/
def PyErr.msg : PyErr → String
  | .attributeError => "AttributeError"
  | .keyError => "KeyError"
  | .typeError => "TypeError"
  | .valueError => "ValueError"
  | .indexError => "IndexError"
  | .runtimeError => "RuntimeError"
  | .genericError => "Exception"

/-- Python's `f"{type(e).__name__}: {e}"` used by the analysis handlers. -/
def PyErr.diag (e : PyErr) : String := e.msg ++ ": error"

/-- Dynamically-typed Python values as they appear in the hint dictionaries
produced by the intent parser.  `trV` is a `time_range` dictionary: each field
is `none` when the key is absent and `some v` when the key is present with
value `v` (possibly `noneV`, i.e. present-but-null). -/
inductive PyV where
  | noneV
  | boolV (b : Bool)
  | intV (n : Int)
  | strV (s : String)
  | listV (xs : List PyV)
  | trV (kind daysAgo hours startF endF atF : Option PyV)
  | otherV

/-- Python truthiness (`bool(x)`); a `time_range` dict is truthy iff it has at
least one key, and opaque objects are truthy. -/
def PyV.truthy : PyV → Bool
  | .noneV => false
  | .boolV b => b
  | .intV n => n != 0
  | .strV s => s != ""
  | .listV xs => !xs.isEmpty
  | .trV k d h s e a =>
      k.isSome || d.isSome || h.isSome || s.isSome || e.isSome || a.isSome
  | .otherV => true

/-- Python `str(x)` restricted to the shapes the orchestrator ever formats.
Containers and opaque objects are rendered with placeholder text; the code only
ever compares such renderings against fixed enum strings, which they never
equal, so the placeholder is behaviour-preserving. -/
def PyV.pyStr : PyV → String
  | .noneV => "None"
  | .boolV b => if b then "True" else "False"
  | .intV n => toString n
  | .strV s => s
  | .listV _ => "<list>"
  | .trV _ _ _ _ _ _ => "<dict>"
  | .otherV => "<object>"

/-- Python `x == s` for a string literal `s`: only equal strings compare
equal; values of other types are never equal to a string. -/
def PyV.eqStr : PyV → String → Bool
  | .strV s, t => s == t
  | _, _ => false

/-- Substring test implementing Python's `needle in hay` on strings. -/
def strContains (hay needle : String) : Bool :=
  (List.range (hay.toList.length + 1)).any
    (fun i => needle.toList.isPrefixOf (hay.toList.drop i))

/-! List-based embeddings of the Python string operations the code uses
(`upper`, `lower`, `strip`, `split`, `replace`, `startswith`, `in`, `int()`),
kept executable down to `List Char` so that concrete runs evaluate. -/

def upperStr (s : String) : String := String.mk (s.toList.map Char.toUpper)

def lowerStr (s : String) : String := String.mk (s.toList.map Char.toLower)

/-- Python `s.strip()`. -/
def trimStr (s : String) : String :=
  String.mk (((s.toList.dropWhile Char.isWhitespace).reverse.dropWhile
    Char.isWhitespace).reverse)

/-- Python `s.replace("\n", " ")` (single-character pattern). -/
def replaceNlSpace (s : String) : String :=
  String.mk (s.toList.map (fun c => if c = '\n' then ' ' else c))

/-- Python `s.startswith(pfx)`. -/
def startsWith (pfx s : String) : Bool := pfx.toList.isPrefixOf s.toList

/-- Python `c in s` for a single character. -/
def containsChar (s : String) (c : Char) : Bool := s.toList.contains c

/-- Tokenizer behind Python `s.split()`. -/
def splitWSGo : List Char → List Char → List (List Char)
  | acc, [] => [acc.reverse]
  | acc, c :: t =>
    if c.isWhitespace then acc.reverse :: splitWSGo [] t
    else splitWSGo (c :: acc) t

/-- Python `s.split()` (split on whitespace runs, dropping empty pieces). -/
def pySplitWS (s : String) : List String :=
  ((splitWSGo [] s.toList).map String.mk).filter (fun t => t != "")

/-- Fuelled scanner behind Python `s.split(sep)` for non-empty `sep`; the
fuel `|s| + 1` always suffices since every step consumes a character. -/
def splitOnFuel (sep : List Char) : Nat → List Char → List Char → List String
  | 0, acc, rest => [String.mk (acc.reverse ++ rest)]
  | _ + 1, acc, [] => [String.mk acc.reverse]
  | n + 1, acc, c :: t =>
    if sep.isPrefixOf (c :: t) then
      String.mk acc.reverse :: splitOnFuel sep n [] ((c :: t).drop sep.length)
    else splitOnFuel sep n (c :: acc) t

/-- Python `s.split(sep)` for non-empty separators. -/
def splitOnStr (s sep : String) : List String :=
  if sep = "" then [s]
  else splitOnFuel sep.toList (s.toList.length + 1) [] s.toList

def digitsVal : List Char → Option Nat
  | [] => none
  | cs =>
    if cs.all Char.isDigit then
      some (cs.foldl (fun a c => a * 10 + (c.toNat - 48)) 0)
    else none

/-- Python `int(s)` on strings: optional sign, then decimal digits, with
surrounding whitespace stripped; anything else raises `ValueError`. -/
def pyIntOfStr (s : String) : Option Int :=
  match (trimStr s).toList with
  | '+' :: rest => (digitsVal rest).map Int.ofNat
  | '-' :: rest => (digitsVal rest).map (fun n => -(n : Int))
  | cs => (digitsVal cs).map Int.ofNat

/-- Python `int(x)`: identity on ints, bools become 0/1, numeric strings are
parsed (after stripping whitespace), anything else raises. -/
def PyV.toIntPy : PyV → Except PyErr Int
  | .intV n => .ok n
  | .boolV b => .ok (if b then 1 else 0)
  | .strV s =>
      match pyIntOfStr s with
      | some n => .ok n
      | none => .error .valueError
  | _ => .error .typeError

/-- One row of a query result: a string-keyed, insertion-ordered mapping. -/
abbrev Row := List (String × String)

/-- Python dict lookup `d.get(k)`. -/
def dictGet : Row → String → Option String
  | [], _ => none
  | p :: t, k => if p.fst == k then some p.snd else dictGet t k

/-- Python dict assignment `d[k] = v`: overwrite the (unique) existing entry
in place, or append a fresh one. -/
def dictSet : Row → String → String → Row
  | [], k, v => [(k, v)]
  | p :: t, k, v => if p.fst == k then (k, v) :: t else p :: dictSet t k v

/-! ## The hint dictionary (`rag_agent.llm_parse` output / `state["hints"]`)

Every field is `none` when the key is absent from the dict and `some v` when
it is present (`some .noneV` for present-but-null).  `node_intent` stores the
empty dict `{}` on failure -- all fields `none`; `llm_parse` output has every
key present. -/
structure Hints where
  question_type : Option PyV := none
  topology_intent : Option PyV := none
  need_stats : Option PyV := none
  need : Option PyV := none
  room : Option PyV := none
  metric : Option PyV := none
  time_range : Option PyV := none
  uncertain : Option PyV := none
  ambiguities : Option PyV := none
  sourceTag : Option PyV := none
  promptPath : Option PyV := none
  question : Option PyV := none

/-- Python truthiness of the hints dict: truthy iff it has at least one key. -/
def Hints.truthy (h : Hints) : Bool :=
  h.question_type.isSome || h.topology_intent.isSome || h.need_stats.isSome ||
  h.need.isSome || h.room.isSome || h.metric.isSome || h.time_range.isSome ||
  h.uncertain.isSome || h.ambiguities.isSome || h.sourceTag.isSome ||
  h.promptPath.isSome || h.question.isSome

/-- The recurring `state.get("hints", {}) or {}` idiom. -/
def hintsOr (h : Option Hints) : Hints :=
  let h0 := h.getD {}
  if h0.truthy then h0 else {}

/-- The `time_window` record written by `normalize_time`. -/
structure TimeWindow where
  start_local : Option String
  end_local : Option String
  label : String
  ok : Bool
  error : Option String
deriving DecidableEq

/-! ## The Request State (`graph.State` TypedDict)

`total=False`: every key may be absent, hence the `Option` fields.  `question`
is populated at request entry by the UI layer.  `analysis` records are opaque
collaborator output, modelled as `PyV` values. -/
structure State where
  question : String
  need_stats : Option Bool := none
  have_rows : Option Bool := none
  retries : Option Int := none
  max_retries : Option Int := none
  hints : Option Hints := none
  time_window : Option TimeWindow := none
  context : Option String := none
  sparql : Option String := none
  rows : Option (List Row) := none
  analysis : Option (List PyV) := none
  analysis_error : Option (Option String) := none
  answer : Option String := none
  trace : Option (List String) := none
  topology_all_rooms : Option (List Row) := none
  sparql_history : Option (List (String × String)) := none
  fallback_strategy : Option String := none

/-- `state.setdefault("trace", []).append(name)`. -/
def State.pushTrace (s : State) (name : String) : State :=
  { s with trace := some (s.trace.getD [] ++ [name]) }

/-- Truthiness of `state.get("sparql")` (absent or empty string is falsy). -/
def optStrTruthy : Option String → Bool
  | none => false
  | some s => s != ""

/-! ## `app/nodes/rag_agent.py` -/

def ALLOWED_NEEDS : List String := ["avg", "max", "min", "trend"]

def ALLOWED_QTYPE : List String := ["timeseries", "topology", "other"]

def ALLOWED_TOPO_INTENT : List String := ["count_rooms", "list_rooms", "sensor_existence"]

/-- The room-number regex `(?<!\d)(\d{1,4})(?!\d)` of `rag_agent.llm_parse`
and `sparql_agent._extract_room_from_text`: the first maximal digit run of
length 1..4 wins (longer runs match nowhere because of the look-arounds).
The accumulator holds the current digit run, reversed. -/
def extractRoomGo : List Char → List Char → Option String
  | acc, [] =>
    if 1 ≤ acc.length ∧ acc.length ≤ 4 then some (String.mk acc.reverse) else none
  | acc, c :: t =>
    if c.isDigit then extractRoomGo (c :: acc) t
    else if 1 ≤ acc.length ∧ acc.length ≤ 4 then some (String.mk acc.reverse)
    else extractRoomGo [] t

/-- `rag_agent._extract_room_from_text` / the room cleaning in `llm_parse`. -/
def extract_room_from_text (s : String) : Option String := extractRoomGo [] s.toList

/-- `rag_agent._neutral(question, source_reason)`. -/
def neutralHints (promptPath reason : String) : Hints :=
  { question_type := some (.strV "other")
    topology_intent := some .noneV
    need_stats := some (.boolV false)
    need := some .noneV
    room := some .noneV
    metric := some .noneV
    time_range := some .noneV
    uncertain := some (.boolV true)
    ambiguities := some (.listV [])
    sourceTag := some (.strV reason)
    promptPath := some (.strV promptPath) }

/-- `rag_agent._normalize_need`. -/
def normalize_need (x : PyV) : Option (List String) :=
  if !x.truthy then none
  else
    let asList : Option (List PyV) :=
      match x with
      | .strV s => some [.strV s]
      | .listV l => some l
      | _ => none
    match asList with
    | none => none
    | some l =>
        some (l.filterMap (fun v =>
          match v with
          | .strV n =>
              if lowerStr (trimStr n) ∈ ALLOWED_NEEDS then some (lowerStr (trimStr n)) else none
          | _ => none))

/-- The raw dictionary extracted from the LLM reply by
`rag_agent._safe_json_from_text` (an external `json`/`re` computation,
supplied by the oracle); each field follows dict-key conventions of `Hints`. -/
structure RawHints where
  question_type : Option PyV := none
  topology_intent : Option PyV := none
  need_stats : Option PyV := none
  need : Option PyV := none
  room : Option PyV := none
  metric : Option PyV := none
  time_range : Option PyV := none
  uncertain : Option PyV := none
  ambiguities : Option PyV := none

/-- The field-cleaning tail of `rag_agent.llm_parse` (its successful path). -/
def cleanHints (promptPath : String) (d : RawHints) : Hints :=
  let qtype0 := lowerStr (PyV.pyStr (d.question_type.getD (.strV "other")))
  let qtype := if qtype0 ∈ ALLOWED_QTYPE then qtype0 else "other"
  let topo :=
    match d.topology_intent.getD .noneV with
    | .strV s =>
        let t := trimStr (lowerStr s)
        if t ∈ ALLOWED_TOPO_INTENT then PyV.strV t else .noneV
    | v => v
  let need := normalize_need (d.need.getD .noneV)
  let needStats :=
    (d.need_stats.getD .noneV).truthy ||
    (match need with | some l => !l.isEmpty | none => false)
  let room :=
    match d.room.getD .noneV with
    | .strV s =>
        match extract_room_from_text s with
        | some digits => PyV.strV digits
        | none => .noneV
    | v => v
  let metric :=
    match d.metric.getD .noneV with
    | .strV s => if s ∈ ["temp", "rh", "lux", "co2", "pm25"] then PyV.strV s else .noneV
    | _ => .noneV
  let timeRange :=
    match d.time_range.getD .noneV with
    | .trV k da ho st en at_ => if k.isSome then PyV.trV k da ho st en at_ else .noneV
    | _ => .noneV
  let unc := (d.uncertain.getD .noneV).truthy
  let amb0 := d.ambiguities.getD .noneV
  let amb1 := if amb0.truthy then amb0 else .listV []
  let amb :=
    match amb1 with
    | .listV l => PyV.listV l
    | v => .listV [.strV v.pyStr]
  { question_type := some (.strV qtype)
    topology_intent := some topo
    need_stats := some (.boolV needStats)
    need := some (match need with | some l => .listV (l.map PyV.strV) | none => .noneV)
    room := some room
    metric := some metric
    time_range := some timeRange
    uncertain := some (.boolV unc)
    ambiguities := some amb
    sourceTag := some (.strV "llm")
    promptPath := some (.strV promptPath) }

/-- Oracle for one invocation of `rag_agent.llm_parse`: the prompt-file load
(`_load_prompt`, which reads the disk and may raise), LLM availability
(`_get_llm`), the two LLM calls, and the `_safe_json_from_text` extraction. -/
structure ParseO where
  promptLoad : Except PyErr (Option String)
  llmAvail : Bool
  invoke : Except PyErr String
  predict : Except PyErr String
  safeJson : String → Option RawHints
  promptPath : String

/-- `rag_agent.llm_parse`.  `_load_prompt()` and `_get_llm()` run outside the
`try`, so a raise from the prompt-file read propagates; every failure inside
the `try` degrades to the neutral record. -/
def llm_parse (o : ParseO) : Except PyErr Hints :=
  match o.promptLoad with
  | .error e => .error e
  | .ok none => .ok (neutralHints o.promptPath "no-prompt")
  | .ok (some _) =>
    if !o.llmAvail then .ok (neutralHints o.promptPath "no-llm")
    else
      let textE : Except PyErr String :=
        match o.invoke with
        | .ok t => .ok t
        | .error _ => o.predict
      match textE with
      | .error _ => .ok (neutralHints o.promptPath "llm-error")
      | .ok text =>
        match o.safeJson text with
        | none => .ok (neutralHints o.promptPath "parse-error")
        | some d => .ok (cleanHints o.promptPath d)

/-- `rag_agent.get_hints`. -/
def get_hints (o : ParseO) : Except PyErr Hints := llm_parse o

/-- `rag_agent.need_stats` (its own `try` makes it total). -/
def need_stats_fn (o : ParseO) : Bool :=
  match llm_parse o with
  | .ok h => (h.need_stats.getD .noneV).truthy
  | .error _ => false

/-- A retrieval chunk `{"text": ..., "score": ...}`; the score is carried in
its `:.3f` rendering, which is all `build_context` uses. -/
structure Chunk where
  text : String
  scoreStr : String

/-- `rag_agent.build_context`. -/
def build_context (chunks : List Chunk) : String :=
  if chunks.isEmpty then ""
  else
    "以下是与问题相关的建筑知识片段：\n" ++
      String.intercalate "\n"
        (chunks.mapIdx (fun i c =>
          "[" ++ toString (i + 1) ++ "] " ++ c.text ++ " (score=" ++ c.scoreStr ++ ")"))

/-! ## `app/nodes/sparql_agent.py` -/

def BRICK_PFX : String := "PREFIX brick: <https://brickschema.org/schema/Brick#>"

def REF_PFX : String := "PREFIX ref:   <https://brickschema.org/schema/Brick/ref#>"

def BLDG_PFX : String := "PREFIX bldg:  <urn:demo-building#>"

def ALL_PFX : String := BRICK_PFX ++ "\n" ++ REF_PFX ++ "\n" ++ BLDG_PFX

def METRIC_KEYS : List String := ["temp", "rh", "lux", "co2", "pm25"]

/-- `sparql_agent._METRIC_TO_TYPES` lookup. -/
def metricTypes : String → List String
  | "temp" => ["brick:Air_Temperature_Sensor"]
  | "rh" => ["brick:Relative_Humidity_Sensor"]
  | "lux" => ["brick:Illuminance_Sensor"]
  | "co2" => ["brick:CO2_Level_Sensor"]
  | "pm25" => ["brick:PM2.5_Sensor"]
  | _ => []

/-- `sparql_agent._get_metric_types` (all five types when the metric is
falsy, unknown, or not a string). -/
def get_metric_types (metric : PyV) : List String :=
  match metric with
  | .strV s => if s ∈ METRIC_KEYS then metricTypes s else METRIC_KEYS.flatMap metricTypes
  | _ => METRIC_KEYS.flatMap metricTypes

/-- `sparql_agent._values_pt_types`. -/
def values_pt_types (metric : PyV) : String :=
  "VALUES ?ptType \x7b " ++ String.intercalate " " (get_metric_types metric) ++ " \x7d"

/-- `sparql_agent._room_filter`. -/
def room_filter (room_no : String) : String :=
  "FILTER(STRENDS(STR(?room), \"_" ++ room_no ++ "\"))"

/-- `sparql_agent._KEYWORD_TO_METRIC`, in dict insertion order. -/
def KEYWORD_TO_METRIC : List (String × List String) :=
  [("co2", ["co2", "二氧化碳", "二氧化碳浓度", "co₂"]),
   ("pm25", ["pm2.5", "pm25", "pm 2.5", "颗粒", "粉尘"]),
   ("temp", ["温度", "temperature", "temp"]),
   ("rh", ["湿度", "humidity", "rh"]),
   ("lux", ["照度", "光照", "illuminance", "lux"])]

/-- `sparql_agent._infer_metric_from_text`. -/
def infer_metric_from_text (text : String) : Option String :=
  let lower := lowerStr text
  (KEYWORD_TO_METRIC.find? (fun p => p.snd.any (fun kw => strContains lower kw))).map (·.fst)

/-- `SPARQLTemplates.room_points_tsid` (after its `.strip()`). -/
def room_points_tsid (room_no : String) (metric : PyV) : String :=
  ALL_PFX ++ "\n\nSELECT ?room ?pt ?ptType ?tsid WHERE \x7b\n  ?room a brick:Room .\n  "
    ++ room_filter room_no
    ++ "\n\n  ?pt a ?ptType ;\n      brick:isPointOf ?room ;\n      ref:hasTimeseriesReference [\n        a ref:TimeseriesReference ;\n        ref:hasTimeseriesId ?tsid\n      ] .\n\n  "
    ++ values_pt_types metric
    ++ "\n\x7d\nLIMIT 50"

/-- `SPARQLTemplates.list_points_any` (after its `.strip()`). -/
def list_points_any (limit : Nat) : String :=
  ALL_PFX ++ "\n\nSELECT ?room ?pt ?ptType ?tsid WHERE \x7b\n  ?room a brick:Room .\n\n  ?pt a ?ptType ;\n      brick:isPointOf ?room ;\n      ref:hasTimeseriesReference [\n        a ref:TimeseriesReference ;\n        ref:hasTimeseriesId ?tsid\n      ] .\n\n  "
    ++ values_pt_types .noneV
    ++ "\n\x7d\nLIMIT " ++ toString limit

/-- `SPARQLTemplates.count_rooms` (after its `.strip()`). -/
def count_rooms_q : String :=
  ALL_PFX ++ "\n\nSELECT (COUNT(DISTINCT ?room) AS ?roomCount)\nWHERE \x7b\n  ?room a brick:Room .\n\x7d"

/-- `SPARQLTemplates.list_rooms` (after its `.strip()`). -/
def list_rooms_q : String :=
  ALL_PFX ++ "\n\nSELECT DISTINCT ?room\nWHERE \x7b\n  ?room a brick:Room .\n\x7d\nORDER BY ?room"

/-- `SPARQLTemplates.sensor_existence` (after its `.strip()`). -/
def sensor_existence_q (room metric : PyV) : String :=
  let roomCondition := if room.truthy then room_filter room.pyStr else "?room a brick:Room ."
  ALL_PFX ++ "\n\nSELECT DISTINCT ?room ?ptType\nWHERE \x7b\n  "
    ++ roomCondition
    ++ "\n  ?pt a ?ptType ;\n      brick:isPointOf ?room .\n  "
    ++ values_pt_types metric
    ++ "\n\x7d"

/-- The `text or ""` coercion applied before the room/metric regexes; the
question slot always holds the question string in practice. -/
def asTextOr (v : PyV) : String :=
  match v with
  | .strV s => s
  | _ => ""

/-- `SPARQLGenerator.generate_timeseries_query`. -/
def generate_timeseries_query (hints : Hints) : String :=
  let qText := asTextOr (hints.question.getD (.strV ""))
  let room :=
    let r := hints.room.getD .noneV
    if r.truthy then r
    else match extract_room_from_text qText with
         | some d => PyV.strV d
         | none => .noneV
  let metric :=
    let m := hints.metric.getD .noneV
    if m.truthy then m
    else match infer_metric_from_text qText with
         | some s => PyV.strV s
         | none => .noneV
  if room.truthy then room_points_tsid room.pyStr metric else list_points_any 20

/-- `SPARQLGenerator.generate_topology_query`: the intent is looked up with
`query_map.get(topo_intent, list_rooms)`, a dict lookup keyed by the intent
value, so an unhashable value -- a JSON list or dict, which `llm_parse`
passes through uncleaned -- raises `TypeError` before any template runs;
every other non-matching value falls back to `list_rooms`. -/
def generate_topology_query (hints : Hints) : Except PyErr String :=
  match hints.topology_intent.getD .noneV with
  | .listV _ => .error .typeError
  | .trV _ _ _ _ _ _ => .error .typeError
  | .strV "count_rooms" => .ok count_rooms_q
  | .strV "list_rooms" => .ok list_rooms_q
  | .strV "sensor_existence" =>
      .ok (sensor_existence_q (hints.room.getD .noneV) (hints.metric.getD .noneV))
  | _ => .ok list_rooms_q

/-- `SPARQLGenerator.generate`, including the `hints = hints or {}` rebinding
and the `hints["question"] = question` in-place mutation.  The mutation
precedes any raise, so it is an observable side effect even when the topology
branch raises `TypeError`; the mutated dict is therefore returned alongside
the outcome so callers can reflect the mutation exactly when the original
dict object was the truthy one. -/
def sparql_generate (question : String) (hints0 : Hints) : Hints × Except PyErr String :=
  let base := if hints0.truthy then hints0 else {}
  let hints := { base with question := some (.strV question) }
  let q : Except PyErr String :=
    if (hints.question_type.getD .noneV).eqStr "topology" then
      generate_topology_query hints
    else .ok (generate_timeseries_query hints)
  (hints, q)

/-- Oracle for one LLM-backed generation call: availability of the model
handle and the extracted text of its reply. -/
structure LLMO where
  avail : Bool
  invoke : Except PyErr String

/-- The code-fence-stripping loop shared by both `_clean_sparql_response`
functions: first marker present in the text (re-checked for two split parts)
wins; otherwise the text passes through. -/
def stripCodeFence (s : String) : List String → String
  | [] => s
  | m :: rest =>
    if strContains s m then
      let parts := splitOnStr s m
      if parts.length ≥ 2 then trimStr ((splitOnStr (parts.getD 1 "") "```").headD "")
      else stripCodeFence s rest
    else stripCodeFence s rest

def FENCE_MARKERS : List String := ["```sparql", "```sql", "```"]

/-- `sparql_agent._clean_sparql_response`. -/
def clean_sparql_response_agent (sparql : String) : String :=
  let s := stripCodeFence (trimStr sparql) FENCE_MARKERS
  if !strContains s "PREFIX brick:" then ALL_PFX ++ "\n\n" ++ s else s

/-- `LLMSPARQLGenerator.generate` = `sparql_agent.llm_based_sparql_generation`:
no model or a failed call falls back to the broad template. -/
def llm_based_sparql_generation (o : LLMO) : String :=
  if !o.avail then list_points_any 50
  else
    match o.invoke with
    | .ok resp => clean_sparql_response_agent resp
    | .error _ => list_points_any 50

/-- `rag_agent`'s own prefix block used by its `_clean_sparql_response`
(single-space variant). -/
def RAG_BASIC_PFX : String :=
  "PREFIX brick: <https://brickschema.org/schema/Brick#>\nPREFIX ref: <https://brickschema.org/schema/Brick/ref#>\nPREFIX bldg: <urn:demo-building#>"

/-- `rag_agent._clean_sparql_response`. -/
def clean_sparql_response_rag (sparql : String) : String :=
  let s := stripCodeFence (trimStr sparql) FENCE_MARKERS
  if !strContains s "PREFIX brick:" then RAG_BASIC_PFX ++ "\n\n" ++ s else s

/-- The no-LLM fallback constant of `rag_agent.advanced_text_to_sparql`
(after its `.strip()`). -/
def advNoLLMTemplate : String :=
  "PREFIX brick: <https://brickschema.org/schema/Brick#>\nPREFIX ref:   <https://brickschema.org/schema/Brick/ref#>\nPREFIX bldg:  <urn:demo-building#>\n\nSELECT ?room ?pt ?ptType ?tsid WHERE \x7b\n  ?room a brick:Room .\n  ?pt a ?ptType ;\n      brick:isPointOf ?room ;\n      ref:hasTimeseriesReference [ ref:hasTimeseriesId ?tsid ] .\n\x7d LIMIT 50"

/-- `rag_agent.advanced_text_to_sparql` (the level-2 escalation generator). -/
def advanced_text_to_sparql (o : LLMO) : String :=
  if !o.avail then advNoLLMTemplate
  else
    match o.invoke with
    | .ok resp => clean_sparql_response_rag resp
    | .error _ => "SELECT ?s ?p ?o WHERE \x7b ?s ?p ?o \x7d LIMIT 20"

/-! ## `app/nodes/normalize_time_agent.py`

Calendar arithmetic (`datetime`, `dateutil.tz`, `strptime`) is external; the
`Cal` oracle provides the local clock and the date operations over abstract
instants, while all control flow of `normalize_time` is embedded from the
source. -/

structure Cal where
  now : Int
  startOfDay : Int → Int
  subDays : Int → Int → Int
  addDay : Int → Int
  subHours : Int → Int → Int
  addHour : Int → Int
  strptime : String → String → Option Int
  iso : Int → String

/-- `normalize_time_agent._parse_dt`: empty/falsy input raises `ValueError`,
non-strings raise from `strptime`, otherwise the two formats are tried. -/
def parse_dt (cal : Cal) (v : PyV) : Except PyErr Int :=
  if !v.truthy then .error .valueError
  else
    match v with
    | .strV s =>
        match cal.strptime "%Y-%m-%dT%H:%M" s with
        | some dt => .ok dt
        | none =>
          match cal.strptime "%Y-%m-%d" s with
          | some dt => .ok dt
          | none => .error .valueError
    | _ => .error .typeError

def NO_TIME_LABEL : String := "（无时间限定）"

def TIME_FAIL_LABEL : String := "（时间解析失败）"

/-- `normalize_time_agent.normalize_time`.  The `try` converts any parse
error into the `ok=false` window; an absent or unrecognized `kind` yields the
no-constraint window. -/
def normalize_time (cal : Cal) (hints : Hints) : TimeWindow :=
  let tr0 := hints.time_range.getD .noneV
  let tr := if tr0.truthy then tr0 else PyV.trV none none none none none none
  let body : Except PyErr TimeWindow :=
    match tr with
    | .trV k da ho st en atF => do
      let kind := k.getD .noneV
      if kind.eqStr "relative_days" then do
        let d ← (da.getD (.intV 1)).toIntPy
        let base := cal.subDays (cal.startOfDay cal.now) d
        let label := if d == 1 then "昨天" else toString d ++ "天前"
        .ok ⟨some (cal.iso base), some (cal.iso (cal.addDay base)), label, true, none⟩
      else if kind.eqStr "last_hours" then do
        let h ← (ho.getD (.intV 6)).toIntPy
        let hh := max 1 h
        let startDt := cal.subHours cal.now hh
        .ok ⟨some (cal.iso startDt), some (cal.iso cal.now),
             "最近" ++ toString hh ++ "小时", true, none⟩
      else if kind.eqStr "absolute" then do
        let rawS := st.getD (.strV "")
        let rawE := en.getD (.strV "")
        let sDt ← parse_dt cal rawS
        let eDt ← parse_dt cal rawE
        .ok ⟨some (cal.iso sDt), some (cal.iso eDt),
             rawS.pyStr ++ " ~ " ++ rawE.pyStr, true, none⟩
      else if kind.eqStr "point_in_time" then do
        let rawA := atF.getD (.strV "")
        let aDt ← parse_dt cal rawA
        .ok ⟨some (cal.iso aDt), some (cal.iso (cal.addHour aDt)), rawA.pyStr, true, none⟩
      else
        .ok ⟨none, none, NO_TIME_LABEL, true, none⟩
    | _ => .error .attributeError
  match body with
  | .ok w => w
  | .error e => ⟨none, none, TIME_FAIL_LABEL, false, some ("时间解析失败: " ++ e.msg)⟩

/-- `normalize_time_agent.node_normalize_time`, delegated to by the graph's
`node_normalize_time` wrapper. -/
def node_normalize_time (cal : Cal) (s : State) : Except PyErr State :=
  let result := normalize_time cal (hintsOr s.hints)
  .ok { s with time_window := some result,
               trace := some (s.trace.getD [] ++ ["normalize_time"]) }

/-! ## `app/nodes/sparql_exec.py` -/

def lbrace : Char := Char.ofNat 123

def rbrace : Char := Char.ofNat 125

/-- The closing bracket paired with an opener (`pairs[op]`). -/
def pairOf (c : Char) : Char :=
  if c = '(' then ')' else if c = lbrace then rbrace else ']'

/-- The bracket-matching loop of `_basic_syntax_check`. -/
def bracketScan : List Char → List Char → Bool
  | [], stack => stack.isEmpty
  | c :: cs, stack =>
    if c = '(' || c = lbrace || c = '[' then bracketScan cs (c :: stack)
    else if c = ')' || c = rbrace || c = ']' then
      match stack with
      | [] => false
      | op :: rest => if pairOf op = c then bracketScan cs rest else false
    else bracketScan cs stack

/-- `sparql_exec._basic_syntax_check`. -/
def basic_syntax_check (q : String) : Bool :=
  if q == "" then false
  else if !bracketScan q.toList [] then false
  else
    let tokens := pySplitWS (replaceNlSpace q)
    let usesPfx := tokens.any (fun t =>
      containsChar t ':' && !(startsWith "http" t) && !(startsWith "PREFIX" (upperStr t)))
    if usesPfx && !strContains (upperStr q) "PREFIX" then false else true

/-- The `ts_id` → `tsid` aliasing step of `_norm_row`. -/
def normAlias (out : Row) : Row :=
  if (dictGet out "tsid").isNone then
    match dictGet out "ts_id" with
    | some v => dictSet out "tsid" v
    | none => out
  else out

/-- `sparql_exec._norm_row`: rebuild the dict (values already stringified by
the oracle) and alias `ts_id` to `tsid`. -/
def norm_row (item : Row) : Row :=
  normAlias (item.foldl (fun acc p => dictSet acc p.fst p.snd) [])

/-- An `rdflib` query result: the bound variable names and the stringified
value lists of each result row. -/
structure QRes where
  vars : List String
  results : List (List String)

/-- Oracle for one `sparql_exec.execute` invocation: the lazy graph load
(`_get_graph`, which parses the TTL file and may raise), the engine run
`g.query`, and the measured elapsed time. -/
structure ExecO where
  graphLoad : Except PyErr Unit
  queryRun : String → Except PyErr QRes
  elapsedMs : Nat

/-- `{vars_[i]: r[i] for i in range(len(vars_))}`: raises `IndexError` when a
result row is shorter than the variable list. -/
def buildItem (vs : List String) (r : List String) : Except PyErr Row :=
  if r.length < vs.length then .error .indexError else .ok (vs.zip r)

/-- One result row turned into a dict: `vars_ = [...] or None` selects the
named-variable or positional (`col<i>`) construction. -/
def rowBuild (vars : List String) (r : List String) : Except PyErr Row :=
  match (if vars.isEmpty then none else some vars) with
  | some vs => (buildItem vs r).map norm_row
  | none => .ok (norm_row (r.mapIdx (fun i v => ("col" ++ toString i, v))))

/-- `sparql_exec.execute`.  The basic syntax check and the engine run fail
closed; `_get_graph()` runs outside the `try`, so its errors propagate. -/
def execute (o : ExecO) (query : String) : Except PyErr (List Row) :=
  if !basic_syntax_check query then .ok []
  else
    match o.graphLoad with
    | .error e => .error e
    | .ok _ =>
      match o.queryRun query with
      | .error _ => .ok []
      | .ok qres =>
        match qres.results.mapM (rowBuild qres.vars) with
        | .error e => .error e
        | .ok rows =>
          match rows with
          | [] => .ok []
          | r :: rest => .ok (dictSet r "__elapsed_ms" (toString o.elapsedMs) :: rest)

/-! ## `app/tools/graph.py` : step handlers, routers, workflow -/

def USE_RAG : Bool := true

/-- `graph.node_intent`.  Two `ParseO` oracles because the handler invokes
`llm_parse` twice (once via `get_hints`, once via `need_stats`). -/
def node_intent (o₁ o₂ : ParseO) (s0 : State) : Except PyErr State :=
  let s := s0.pushTrace "intent"
  let s :=
    match get_hints o₁ with
    | .ok h => { s with hints := some h, need_stats := some (need_stats_fn o₂) }
    | .error _ => { s with hints := some {}, need_stats := some false }
  .ok { s with retries := some 0, max_retries := some 1 }

/-- The hints dictionary the intent step stores: the parsed (or neutral)
record when `get_hints` returns, the empty dict when it raised. -/
def intentHints (p : ParseO) : Hints :=
  match get_hints p with
  | .ok h => h
  | .error _ => {}

/-- `graph.node_rag`. -/
def node_rag (search : Except PyErr (List Chunk)) (s0 : State) : Except PyErr State :=
  let s := s0.pushTrace "rag"
  match search with
  | .ok chunks => .ok { s with context := some (build_context chunks) }
  | .error _ => .ok { s with context := some "" }

/-- `graph.node_generate_sparql`.  A pre-populated non-empty `sparql` short
circuits; otherwise `SPARQLGenerator.generate` runs inside the `try`: on
success the node stores the query and appends `("initial", query)` to the
history; when the generator raises -- the `TypeError` of an unhashable
`topology_intent` reaching `query_map.get` -- the `except` arm stores
`sparql=""` and appends nothing to the history (which is not even
initialized, the initialization statement sitting after the raising call).
The in-place `hints["question"]` dict mutation is reflected exactly when the
stored dict was the truthy object passed in -- on the raising path too, since
the mutation precedes the raise. -/
def node_generate_sparql (s0 : State) : Except PyErr State :=
  let s := s0.pushTrace "generate_sparql"
  if optStrTruthy s.sparql then .ok s
  else
    let pr := sparql_generate s.question (s.hints.getD {})
    let hintsUpd : Option Hints :=
      match s.hints with
      | some old => if old.truthy then some pr.1 else some old
      | none => none
    match pr.2 with
    | .ok newSparql =>
        .ok { s with hints := hintsUpd,
                     sparql_history := some (s.sparql_history.getD [] ++ [("initial", newSparql)]),
                     sparql := some newSparql }
    | .error _ => .ok { s with hints := hintsUpd, sparql := some "" }

/-- The hard-coded "list all rooms" query of `node_execute_sparql` (after its
`.strip()`). -/
def ALL_ROOMS_Q : String :=
  "PREFIX brick: <https://brickschema.org/schema/Brick#>\nPREFIX bldg:  <urn:demo-building#>\n\nSELECT DISTINCT ?room\nWHERE \x7b\n  ?room a brick:Room .\n\x7d\nORDER BY ?room"

/-- The `try: rows = execute(...) / except: rows = []` pattern of
`node_execute_sparql`. -/
def execRowsOf (eo : ExecO) (q : String) : List Row :=
  match execute eo q with
  | .ok r => r
  | .error _ => []

/-- `graph.node_execute_sparql`: the main query and, for topology questions,
the unconditional all-rooms query, each failure-isolated to `[]`. -/
def node_execute_sparql (eo topoEo : ExecO) (s0 : State) : Except PyErr State :=
  let s := s0.pushTrace "execute_sparql"
  let rows := execRowsOf eo (s.sparql.getD "")
  let s := { s with rows := some rows, have_rows := some (!rows.isEmpty) }
  if ((hintsOr s.hints).question_type.getD .noneV).eqStr "topology" then
    .ok { s with topology_all_rooms := some (execRowsOf topoEo ALL_ROOMS_Q) }
  else .ok s

/-- Oracle for one `node_route_zero_rows` invocation: the level-1 LLM call,
the level-2 re-retrieval (which may raise), the level-2 LLM call, and the LLM
call of the level-1 fallback. -/
structure ZeroO where
  llm1 : LLMO
  search2 : Except PyErr (List Chunk)
  advLLM : LLMO
  llmFb : LLMO

def ERROR_PLACEHOLDER_Q : String :=
  "SELECT ?error WHERE \x7b BIND(\x27查询失败\x27 AS ?error) \x7d"

/-- `graph.node_route_zero_rows` (the escalation policy).  The two strategy
bodies cannot raise (`llm_based_sparql_generation` and
`advanced_text_to_sparql` catch their own failures; the inner `try` absorbs a
re-retrieval failure into the `level_1_fallback` path), so the outer `except`
(strategy `error`) is reachable only through the `KeyError` of the history
append when `retry_count` exceeds 2 and no strategy was ever recorded. -/
def node_route_zero_rows (o : ZeroO) (s0 : State) : Except PyErr State :=
  let s := s0.pushTrace "route_zero_rows"
  let cur := s.retries.getD 0
  let s := { s with retries := some (cur + 1) }
  let rc := cur + 1
  let attempt : State :=
    if rc == 1 then
      { s with sparql := some (llm_based_sparql_generation o.llm1),
               fallback_strategy := some "level_1" }
    else if rc == 2 then
      match o.search2 with
      | .ok chunks =>
          { s with context := some (build_context chunks),
                   sparql := some (advanced_text_to_sparql o.advLLM),
                   fallback_strategy := some "level_2" }
      | .error _ =>
          { s with sparql := some (llm_based_sparql_generation o.llmFb),
                   fallback_strategy := some "level_1_fallback" }
    else s
  let appended : Except PyErr State :=
    match attempt.fallback_strategy with
    | none => .error .keyError
    | some tag =>
      match attempt.sparql with
      | none => .error .keyError
      | some q =>
          .ok { attempt with
                sparql_history := some (attempt.sparql_history.getD [] ++ [(tag, q)]) }
  match appended with
  | .ok s' => .ok s'
  | .error _ =>
      .ok { attempt with sparql := some ERROR_PLACEHOLDER_Q,
                         fallback_strategy := some "error" }

/-- `hasattr(analysis_agent, "analyze_state")`: the attribute exists in the
source, so the first branch of `node_analyze` is taken. -/
def analysis_has_analyze_state : Bool := true

/-- The tsid extraction of `node_analyze`'s fallback branch. -/
def tsids_of_rows (rows : List Row) : List String :=
  rows.filterMap (fun r =>
    match dictGet r "tsid" with
    | some v => if v != "" then some v else none
    | none => none)

/-- `graph.node_analyze`. -/
def node_analyze (oState : Except PyErr (List PyV))
    (oFn : List String → Except PyErr (List PyV)) (s0 : State) : Except PyErr State :=
  let s := s0.pushTrace "analyze"
  let res := if analysis_has_analyze_state then oState
             else oFn (tsids_of_rows (s.rows.getD []))
  match res with
  | .ok a => .ok { s with analysis := some a, analysis_error := some none }
  | .error e => .ok { s with analysis := some [], analysis_error := some (some e.diag) }

/-- `graph.node_analyze_point_in_time`. -/
def node_analyze_point_in_time (oPit : Except PyErr (List PyV)) (s0 : State) :
    Except PyErr State :=
  let s := s0.pushTrace "analyze_point_in_time"
  match oPit with
  | .ok a => .ok { s with analysis := some a, analysis_error := some none }
  | .error e => .ok { s with analysis := some [], analysis_error := some (some e.diag) }

def APOLOGY : String := "抱歉，暂时无法生成答案。"

/-- `graph.node_answer`. -/
def node_answer (compose : Except PyErr String) (s0 : State) : Except PyErr State :=
  let s := s0.pushTrace "answer"
  match compose with
  | .ok a => .ok { s with answer := some a }
  | .error _ => .ok { s with answer := some APOLOGY }

/-- `graph.route_after_execute`.  `hints.get("time_range", {})` returns the
stored value even when that value is `None`, and `None.get("kind")` raises
`AttributeError`; the deref happens only after the empty-rows and topology
checks, exactly as in the source. -/
def route_after_execute (s : State) : Except PyErr String :=
  let hints := hintsOr s.hints
  let qtype := hints.question_type.getD .noneV
  let timeRange := hints.time_range.getD (PyV.trV none none none none none none)
  let need := hints.need.getD .noneV
  let needOk := match need with | .listV l => !l.isEmpty | _ => false
  if !(s.have_rows.getD false) then .ok "zero"
  else if qtype.eqStr "topology" then .ok "answer"
  else
    match timeRange with
    | .trV k _ _ _ _ _ =>
      if (k.getD .noneV).eqStr "point_in_time" then .ok "analyze_point_in_time"
      else if (s.need_stats.getD false) || needOk then .ok "analyze"
      else .ok "answer"
    | _ => .error .attributeError

/-- `graph.route_retry_or_end`: the local hard-coded bound, not the state's
`max_retries` field. -/
def route_retry_or_end (s : State) : String :=
  let maxRetries : Int := 2
  if s.retries.getD 0 < maxRetries then "retry" else "giveup"

/-! ## The compiled workflow (`StateGraph` walk) -/

inductive Node where
  | intent | rag | normalize | generate | executeQ | zerorows | analyze | analyzePit | answerStep
deriving DecidableEq

/-- Outcome of walking the graph: normal completion, an uncaught Python
exception, or exhaustion of the step budget. -/
inductive RunRes where
  | done (s : State)
  | crash (e : PyErr)
  | fuelOut

/-- All collaborator behaviour for one request; per-invocation oracles are
indexed by invocation count. -/
structure Orc where
  parse1 : ParseO
  parse2 : ParseO
  ragSearch : Except PyErr (List Chunk)
  cal : Cal
  execO : Nat → ExecO
  topoExecO : Nat → ExecO
  zeroO : Nat → ZeroO
  analyzeState : Except PyErr (List PyV)
  analyzeFn : List String → Except PyErr (List PyV)
  analyzePit : Except PyErr (List PyV)
  compose : Except PyErr String

/-- One walk of the compiled graph: nodes in the wiring of
`workflow.add_edge`/`add_conditional_edges`, with `k` counting
`execute_sparql` invocations and `z` counting `route_zero_rows`
invocations. -/
def stepRun (o : Orc) : Nat → Node → Nat → Nat → State → RunRes
  | 0, _, _, _, _ => .fuelOut
  | n + 1, .intent, k, z, s =>
    match node_intent o.parse1 o.parse2 s with
    | .error e => .crash e
    | .ok s' => stepRun o n (if USE_RAG then .rag else .normalize) k z s'
  | n + 1, .rag, k, z, s =>
    match node_rag o.ragSearch s with
    | .error e => .crash e
    | .ok s' => stepRun o n .normalize k z s'
  | n + 1, .normalize, k, z, s =>
    match node_normalize_time o.cal s with
    | .error e => .crash e
    | .ok s' => stepRun o n .generate k z s'
  | n + 1, .generate, k, z, s =>
    match node_generate_sparql s with
    | .error e => .crash e
    | .ok s' => stepRun o n .executeQ k z s'
  | n + 1, .executeQ, k, z, s =>
    match node_execute_sparql (o.execO k) (o.topoExecO k) s with
    | .error e => .crash e
    | .ok s' =>
      match route_after_execute s' with
      | .error e => .crash e
      | .ok r =>
        let nxt : Node :=
          if r == "zero" then .zerorows
          else if r == "analyze" then .analyze
          else if r == "analyze_point_in_time" then .analyzePit
          else .answerStep
        stepRun o n nxt (k + 1) z s'
  | n + 1, .zerorows, k, z, s =>
    match node_route_zero_rows (o.zeroO z) s with
    | .error e => .crash e
    | .ok s' =>
      stepRun o n (if route_retry_or_end s' == "retry" then .generate else .answerStep)
        k (z + 1) s'
  | n + 1, .analyze, k, z, s =>
    match node_analyze o.analyzeState o.analyzeFn s with
    | .error e => .crash e
    | .ok s' => stepRun o n .answerStep k z s'
  | n + 1, .analyzePit, k, z, s =>
    match node_analyze_point_in_time o.analyzePit s with
    | .error e => .crash e
    | .ok s' => stepRun o n .answerStep k z s'
  | _ + 1, .answerStep, _, _, s =>
    match node_answer o.compose s with
    | .error e => .crash e
    | .ok s' => .done s'

/-- A fresh Request State: only `question` populated. -/
def initState (q : String) : State := { question := q }

/-- One full request through the compiled graph (20 steps is ample: the
longest possible path has 10 node visits). -/
def runPipeline (o : Orc) (q : String) : RunRes :=
  stepRun o 20 .intent 0 0 (initState q)

/-! ## Unfolding equations for one graph step -/

theorem stepRun_intent_eq (o : Orc) (n k z : Nat) (s : State) :
    stepRun o (n + 1) .intent k z s =
      (match node_intent o.parse1 o.parse2 s with
       | .error e => .crash e
       | .ok s' => stepRun o n (if USE_RAG then .rag else .normalize) k z s') := rfl

theorem stepRun_rag_eq (o : Orc) (n k z : Nat) (s : State) :
    stepRun o (n + 1) .rag k z s =
      (match node_rag o.ragSearch s with
       | .error e => .crash e
       | .ok s' => stepRun o n .normalize k z s') := rfl

theorem stepRun_normalize_eq (o : Orc) (n k z : Nat) (s : State) :
    stepRun o (n + 1) .normalize k z s =
      (match node_normalize_time o.cal s with
       | .error e => .crash e
       | .ok s' => stepRun o n .generate k z s') := rfl

theorem stepRun_generate_eq (o : Orc) (n k z : Nat) (s : State) :
    stepRun o (n + 1) .generate k z s =
      (match node_generate_sparql s with
       | .error e => .crash e
       | .ok s' => stepRun o n .executeQ k z s') := rfl

theorem stepRun_execute_eq (o : Orc) (n k z : Nat) (s : State) :
    stepRun o (n + 1) .executeQ k z s =
      (match node_execute_sparql (o.execO k) (o.topoExecO k) s with
       | .error e => .crash e
       | .ok s' =>
         match route_after_execute s' with
         | .error e => .crash e
         | .ok r =>
           stepRun o n
             (if r == "zero" then .zerorows
              else if r == "analyze" then .analyze
              else if r == "analyze_point_in_time" then .analyzePit
              else .answerStep) (k + 1) z s') := rfl

theorem stepRun_zerorows_eq (o : Orc) (n k z : Nat) (s : State) :
    stepRun o (n + 1) .zerorows k z s =
      (match node_route_zero_rows (o.zeroO z) s with
       | .error e => .crash e
       | .ok s' =>
         stepRun o n (if route_retry_or_end s' == "retry" then .generate else .answerStep)
           k (z + 1) s') := rfl

theorem stepRun_analyze_eq (o : Orc) (n k z : Nat) (s : State) :
    stepRun o (n + 1) .analyze k z s =
      (match node_analyze o.analyzeState o.analyzeFn s with
       | .error e => .crash e
       | .ok s' => stepRun o n .answerStep k z s') := rfl

theorem stepRun_analyzePit_eq (o : Orc) (n k z : Nat) (s : State) :
    stepRun o (n + 1) .analyzePit k z s =
      (match node_analyze_point_in_time o.analyzePit s with
       | .error e => .crash e
       | .ok s' => stepRun o n .answerStep k z s') := rfl

theorem stepRun_answer_eq (o : Orc) (n k z : Nat) (s : State) :
    stepRun o (n + 1) .answerStep k z s =
      (match node_answer o.compose s with
       | .error e => .crash e
       | .ok s' => .done s') := rfl

/-! ## Per-node output characterizations (the frame lemmas) -/

theorem node_intent_frame (o₁ o₂ : ParseO) (s : State) :
    ∃ s', node_intent o₁ o₂ s = .ok s' ∧
      s'.question = s.question ∧
      s'.trace = some (s.trace.getD [] ++ ["intent"]) ∧
      s'.retries = some 0 ∧ s'.max_retries = some 1 ∧
      s'.sparql = s.sparql ∧ s'.rows = s.rows ∧ s'.have_rows = s.have_rows ∧
      s'.sparql_history = s.sparql_history ∧
      s'.fallback_strategy = s.fallback_strategy := by
  cases hg : get_hints o₁ with
  | ok h =>
      exact ⟨{ (s.pushTrace "intent") with
               hints := some h
               need_stats := some (need_stats_fn o₂)
               retries := some 0
               max_retries := some 1 },
             by simp [node_intent, hg], by simp [State.pushTrace]⟩
  | error e =>
      exact ⟨{ (s.pushTrace "intent") with
               hints := some {}
               need_stats := some false
               retries := some 0
               max_retries := some 1 },
             by simp [node_intent, hg], by simp [State.pushTrace]⟩

theorem node_rag_frame (os : Except PyErr (List Chunk)) (s : State) :
    ∃ s', node_rag os s = .ok s' ∧
      s'.question = s.question ∧
      s'.trace = some (s.trace.getD [] ++ ["rag"]) ∧
      s'.retries = s.retries ∧ s'.max_retries = s.max_retries ∧
      s'.sparql = s.sparql ∧ s'.rows = s.rows ∧ s'.have_rows = s.have_rows ∧
      s'.sparql_history = s.sparql_history ∧ s'.hints = s.hints ∧
      s'.need_stats = s.need_stats ∧
      s'.fallback_strategy = s.fallback_strategy := by
  cases os with
  | ok chunks =>
      exact ⟨{ (s.pushTrace "rag") with context := some (build_context chunks) },
             by simp [node_rag], by simp [State.pushTrace]⟩
  | error e =>
      exact ⟨{ (s.pushTrace "rag") with context := some "" },
             by simp [node_rag], by simp [State.pushTrace]⟩

theorem node_normalize_frame (cal : Cal) (s : State) :
    ∃ s', node_normalize_time cal s = .ok s' ∧
      s'.question = s.question ∧
      s'.trace = some (s.trace.getD [] ++ ["normalize_time"]) ∧
      s'.retries = s.retries ∧ s'.max_retries = s.max_retries ∧
      s'.sparql = s.sparql ∧ s'.rows = s.rows ∧ s'.have_rows = s.have_rows ∧
      s'.sparql_history = s.sparql_history ∧ s'.hints = s.hints ∧
      s'.need_stats = s.need_stats ∧
      s'.fallback_strategy = s.fallback_strategy := by
  exact ⟨{ s with
           time_window := some (normalize_time cal (hintsOr s.hints))
           trace := some (s.trace.getD [] ++ ["normalize_time"]) },
         by simp [node_normalize_time], by simp⟩

theorem node_generate_skip (s : State) (h : optStrTruthy s.sparql = true) :
    node_generate_sparql s = .ok (s.pushTrace "generate_sparql") := by
  simp [node_generate_sparql, State.pushTrace, h]

theorem node_generate_fresh_frame (s : State) (q0 : String)
    (h : optStrTruthy s.sparql = false)
    (hok : (sparql_generate s.question (s.hints.getD {})).2 = .ok q0) :
    ∃ s', node_generate_sparql s = .ok s' ∧
      s'.question = s.question ∧
      s'.trace = some (s.trace.getD [] ++ ["generate_sparql"]) ∧
      s'.retries = s.retries ∧ s'.max_retries = s.max_retries ∧
      s'.sparql = some q0 ∧ s'.rows = s.rows ∧ s'.have_rows = s.have_rows ∧
      s'.sparql_history = some (s.sparql_history.getD [] ++ [("initial", q0)]) ∧
      s'.need_stats = s.need_stats ∧
      s'.fallback_strategy = s.fallback_strategy := by
  refine ⟨{ (s.pushTrace "generate_sparql") with
            hints := match s.hints with
                     | some old => if old.truthy then
                         some (sparql_generate s.question (s.hints.getD {})).1 else some old
                     | none => none
            sparql_history := some (s.sparql_history.getD [] ++ [("initial", q0)])
            sparql := some q0 }, ?_, ?_⟩
  · simp only [node_generate_sparql, State.pushTrace, h]
    rw [hok]
    rfl
  · simp [State.pushTrace]

theorem node_generate_err_frame (s : State) (e : PyErr)
    (h : optStrTruthy s.sparql = false)
    (herr : (sparql_generate s.question (s.hints.getD {})).2 = .error e) :
    ∃ s', node_generate_sparql s = .ok s' ∧
      s'.question = s.question ∧
      s'.trace = some (s.trace.getD [] ++ ["generate_sparql"]) ∧
      s'.retries = s.retries ∧ s'.max_retries = s.max_retries ∧
      s'.sparql = some "" ∧ s'.rows = s.rows ∧ s'.have_rows = s.have_rows ∧
      s'.sparql_history = s.sparql_history ∧
      s'.need_stats = s.need_stats ∧
      s'.fallback_strategy = s.fallback_strategy := by
  refine ⟨{ (s.pushTrace "generate_sparql") with
            hints := match s.hints with
                     | some old => if old.truthy then
                         some (sparql_generate s.question (s.hints.getD {})).1 else some old
                     | none => none
            sparql := some "" }, ?_, ?_⟩
  · simp only [node_generate_sparql, State.pushTrace, h]
    rw [herr]
    rfl
  · simp [State.pushTrace]

theorem node_intent_hints (o₁ o₂ : ParseO) (s s' : State)
    (h : node_intent o₁ o₂ s = .ok s') : s'.hints = some (intentHints o₁) := by
  cases hg : get_hints o₁ with
  | ok hh =>
      simp only [node_intent, hg] at h
      obtain rfl := Except.ok.inj h
      simp [intentHints, hg]
  | error e =>
      simp only [node_intent, hg] at h
      obtain rfl := Except.ok.inj h
      simp [intentHints, hg]

theorem node_execute_frame (eo teo : ExecO) (s : State) :
    ∃ s', node_execute_sparql eo teo s = .ok s' ∧
      s'.question = s.question ∧
      s'.trace = some (s.trace.getD [] ++ ["execute_sparql"]) ∧
      s'.retries = s.retries ∧ s'.max_retries = s.max_retries ∧
      s'.sparql = s.sparql ∧
      s'.rows = some (execRowsOf eo (s.sparql.getD "")) ∧
      s'.have_rows = some (!(execRowsOf eo (s.sparql.getD "")).isEmpty) ∧
      s'.sparql_history = s.sparql_history ∧ s'.hints = s.hints ∧
      s'.need_stats = s.need_stats ∧
      s'.fallback_strategy = s.fallback_strategy := by
  cases hc : ((hintsOr s.hints).question_type.getD PyV.noneV).eqStr "topology" with
  | true =>
      exact ⟨{ (s.pushTrace "execute_sparql") with
               rows := some (execRowsOf eo (s.sparql.getD ""))
               have_rows := some (!(execRowsOf eo (s.sparql.getD "")).isEmpty)
               topology_all_rooms := some (execRowsOf teo ALL_ROOMS_Q) },
             by simp [node_execute_sparql, State.pushTrace, hc], by simp [State.pushTrace]⟩
  | false =>
      exact ⟨{ (s.pushTrace "execute_sparql") with
               rows := some (execRowsOf eo (s.sparql.getD ""))
               have_rows := some (!(execRowsOf eo (s.sparql.getD "")).isEmpty) },
             by simp [node_execute_sparql, State.pushTrace, hc], by simp [State.pushTrace]⟩

theorem node_zero_first_frame (o : ZeroO) (s : State) (h : s.retries = some 0) :
    ∃ s', node_route_zero_rows o s = .ok s' ∧
      s'.question = s.question ∧
      s'.trace = some (s.trace.getD [] ++ ["route_zero_rows"]) ∧
      s'.retries = some 1 ∧ s'.max_retries = s.max_retries ∧
      s'.sparql = some (llm_based_sparql_generation o.llm1) ∧
      s'.rows = s.rows ∧ s'.have_rows = s.have_rows ∧
      s'.sparql_history = some (s.sparql_history.getD [] ++
        [("level_1", llm_based_sparql_generation o.llm1)]) ∧
      s'.fallback_strategy = some "level_1" := by
  refine ⟨{ (s.pushTrace "route_zero_rows") with
            retries := some 1
            sparql := some (llm_based_sparql_generation o.llm1)
            fallback_strategy := some "level_1"
            sparql_history := some (s.sparql_history.getD [] ++
              [("level_1", llm_based_sparql_generation o.llm1)]) }, ?_, ?_⟩
  · simp [node_route_zero_rows, State.pushTrace, h]
  · simp [State.pushTrace]

theorem node_zero_second_frame (o : ZeroO) (s : State) (h : s.retries = some 1) :
    ∃ s' ctx tag q2, node_route_zero_rows o s = .ok s' ∧
      (tag = "level_2" ∨ tag = "level_1_fallback") ∧
      s'.question = s.question ∧
      s'.trace = some (s.trace.getD [] ++ ["route_zero_rows"]) ∧
      s'.retries = some 2 ∧ s'.max_retries = s.max_retries ∧
      s'.sparql = some q2 ∧ s'.rows = s.rows ∧ s'.have_rows = s.have_rows ∧
      s'.context = ctx ∧
      s'.sparql_history = some (s.sparql_history.getD [] ++ [(tag, q2)]) ∧
      s'.fallback_strategy = some tag := by
  cases hs : o.search2 with
  | ok chunks =>
      refine ⟨{ (s.pushTrace "route_zero_rows") with
                retries := some 2
                context := some (build_context chunks)
                sparql := some (advanced_text_to_sparql o.advLLM)
                fallback_strategy := some "level_2"
                sparql_history := some (s.sparql_history.getD [] ++
                  [("level_2", advanced_text_to_sparql o.advLLM)]) },
              some (build_context chunks), "level_2", advanced_text_to_sparql o.advLLM,
              ?_, Or.inl rfl, ?_⟩
      · simp [node_route_zero_rows, State.pushTrace, h, hs]
      · simp [State.pushTrace]
  | error e =>
      refine ⟨{ (s.pushTrace "route_zero_rows") with
                retries := some 2
                sparql := some (llm_based_sparql_generation o.llmFb)
                fallback_strategy := some "level_1_fallback"
                sparql_history := some (s.sparql_history.getD [] ++
                  [("level_1_fallback", llm_based_sparql_generation o.llmFb)]) },
              s.context, "level_1_fallback", llm_based_sparql_generation o.llmFb,
              ?_, Or.inr rfl, ?_⟩
      · simp [node_route_zero_rows, State.pushTrace, h, hs]
      · simp [State.pushTrace]

theorem node_analyze_frame (oS : Except PyErr (List PyV))
    (oF : List String → Except PyErr (List PyV)) (s : State) :
    ∃ s', node_analyze oS oF s = .ok s' ∧
      s'.question = s.question ∧
      s'.trace = some (s.trace.getD [] ++ ["analyze"]) ∧
      s'.retries = s.retries ∧ s'.rows = s.rows ∧
      s'.sparql_history = s.sparql_history := by
  cases hr : (if analysis_has_analyze_state then oS else oF (tsids_of_rows (s.rows.getD []))) with
  | ok a =>
      exact ⟨{ (s.pushTrace "analyze") with
               analysis := some a
               analysis_error := some none },
             by simp [node_analyze, State.pushTrace, hr], by simp [State.pushTrace]⟩
  | error e =>
      exact ⟨{ (s.pushTrace "analyze") with
               analysis := some []
               analysis_error := some (some e.diag) },
             by simp [node_analyze, State.pushTrace, hr], by simp [State.pushTrace]⟩

theorem node_analyze_pit_frame (oP : Except PyErr (List PyV)) (s : State) :
    ∃ s', node_analyze_point_in_time oP s = .ok s' ∧
      s'.question = s.question ∧
      s'.trace = some (s.trace.getD [] ++ ["analyze_point_in_time"]) ∧
      s'.retries = s.retries ∧ s'.rows = s.rows ∧
      s'.sparql_history = s.sparql_history := by
  cases hr : oP with
  | ok a =>
      exact ⟨{ (s.pushTrace "analyze_point_in_time") with
               analysis := some a
               analysis_error := some none },
             by simp [node_analyze_point_in_time, State.pushTrace, hr], by simp [State.pushTrace]⟩
  | error e =>
      exact ⟨{ (s.pushTrace "analyze_point_in_time") with
               analysis := some []
               analysis_error := some (some e.diag) },
             by simp [node_analyze_point_in_time, State.pushTrace, hr], by simp [State.pushTrace]⟩

theorem node_answer_frame (oc : Except PyErr String) (s : State) :
    ∃ s' a, node_answer oc s = .ok s' ∧
      s'.question = s.question ∧
      s'.trace = some (s.trace.getD [] ++ ["answer"]) ∧
      s'.retries = s.retries ∧ s'.rows = s.rows ∧
      s'.sparql_history = s.sparql_history ∧
      s'.answer = some a := by
  cases hc : oc with
  | ok a =>
      exact ⟨{ (s.pushTrace "answer") with answer := some a }, a,
             by simp [node_answer, State.pushTrace, hc], by simp [State.pushTrace]⟩
  | error e =>
      exact ⟨{ (s.pushTrace "answer") with answer := some APOLOGY }, APOLOGY,
             by simp [node_answer, State.pushTrace, hc], by simp [State.pushTrace]⟩

theorem node_generate_frame (s : State) :
    ∃ s' sp, node_generate_sparql s = .ok s' ∧
      s'.question = s.question ∧
      s'.trace = some (s.trace.getD [] ++ ["generate_sparql"]) ∧
      s'.retries = s.retries ∧ s'.max_retries = s.max_retries ∧
      s'.rows = s.rows ∧ s'.have_rows = s.have_rows ∧
      s'.need_stats = s.need_stats ∧
      s'.fallback_strategy = s.fallback_strategy ∧ s'.sparql = sp := by
  by_cases h : optStrTruthy s.sparql = true
  · exact ⟨s.pushTrace "generate_sparql", s.sparql, node_generate_skip s h,
           by simp [State.pushTrace]⟩
  · have hf : optStrTruthy s.sparql = false := by
      cases hb : optStrTruthy s.sparql
      · rfl
      · exact absurd hb h
    cases hres : (sparql_generate s.question (s.hints.getD {})).2 with
    | ok q0 =>
        obtain ⟨s', he, hq, ht, hr, hm, hsp, hro, hhv, hhh, hns, hfb⟩ :=
          node_generate_fresh_frame s q0 hf hres
        exact ⟨s', some q0, he, hq, ht, hr, hm, hro, hhv, hns, hfb, hsp⟩
    | error e =>
        obtain ⟨s', he, hq, ht, hr, hm, hsp, hro, hhv, hhh, hns, hfb⟩ :=
          node_generate_err_frame s e hf hres
        exact ⟨s', some "", he, hq, ht, hr, hm, hro, hhv, hns, hfb, hsp⟩

/-! ## Router facts -/

theorem route_zero_of_no_rows (s : State) (h : s.have_rows = some false) :
    route_after_execute s = .ok "zero" := by
  simp [route_after_execute, h]

theorem route_retry_of_one (s : State) (h : s.retries = some 1) :
    route_retry_or_end s = "retry" := by
  simp [route_retry_or_end, h]

theorem route_giveup_of_two (s : State) (h : s.retries = some 2) :
    route_retry_or_end s = "giveup" := by
  simp [route_retry_or_end, h]

/-! ## Non-emptiness of the escalation generators and route value analysis -/

theorem str_append_ne_empty (a b : String) (h : a.data ≠ []) : a ++ b ≠ "" := by
  intro hab
  have h2 : a.data ++ b.data = ([] : List Char) := congrArg String.data hab
  exact h (List.append_eq_nil.mp h2).1

theorem strContains_pfx_empty_false : strContains "" "PREFIX brick:" = false := by decide

theorem clean_agent_ne_empty (r : String) : clean_sparql_response_agent r ≠ "" := by
  unfold clean_sparql_response_agent
  by_cases hc : strContains (stripCodeFence (trimStr r) FENCE_MARKERS) "PREFIX brick:" = true
  · simp only [hc, Bool.not_true, Bool.false_eq_true, if_false]
    intro he
    rw [he] at hc
    rw [strContains_pfx_empty_false] at hc
    exact Bool.false_ne_true hc
  · have hc' : strContains (stripCodeFence (trimStr r) FENCE_MARKERS) "PREFIX brick:" = false := by
      cases hb : strContains (stripCodeFence (trimStr r) FENCE_MARKERS) "PREFIX brick:"
      · rfl
      · exact absurd hb hc
    simp only [hc', Bool.not_false, if_true]
    exact str_append_ne_empty _ _ (by decide)

theorem list_points_any_50_ne_empty : list_points_any 50 ≠ "" := by decide

theorem llm_based_ne_empty (lo : LLMO) : llm_based_sparql_generation lo ≠ "" := by
  unfold llm_based_sparql_generation
  cases ha : lo.avail with
  | false => exact list_points_any_50_ne_empty
  | true =>
    cases hi : lo.invoke with
    | ok resp => simpa using clean_agent_ne_empty resp
    | error e => simpa using list_points_any_50_ne_empty

/-- The non-zero route targets when rows are present. -/
theorem route_values_pos (s : State) (r : String) (hv : s.have_rows = some true)
    (h : route_after_execute s = .ok r) :
    r = "answer" ∨ r = "analyze" ∨ r = "analyze_point_in_time" := by
  unfold route_after_execute at h
  rw [hv] at h
  simp only [Option.getD_some, Bool.not_true, Bool.false_eq_true, if_false] at h
  split at h
  · exact Or.inl (Except.ok.inj h).symm
  · split at h
    · split at h
      · exact Or.inr (Or.inr (Except.ok.inj h).symm)
      · split at h
        · exact Or.inr (Or.inl (Except.ok.inj h).symm)
        · exact Or.inl (Except.ok.inj h).symm
    · exact absurd h (by simp)

/-- C2 (amended): for every request in which every execute-query invocation
stores an empty row list, the orchestrator reaches the synthesize-answer step
after at most 3 (in fact exactly 2) invocations of execute-query; after the
second escalation attempt the retry router yields giveup and control goes
directly to the answer step even though rows is still empty, with the retries
counter at 2.  (The unconditional claim fails: a request whose rows are
non-empty can crash in routing, see the counterexample.) -/
theorem pipeline_reaches_answer_on_empty_rows (o : Orc) (q : String)
    (hE : ∀ k qry, execRowsOf (o.execO k) qry = []) :
    ∃ s', runPipeline o q = .done s' ∧
      (s'.trace.getD []).count "execute_sparql" = 2 ∧
      (s'.trace.getD []).count "execute_sparql" ≤ 3 ∧
      (s'.trace.getD []).getLast? = some "answer" ∧
      s'.rows = some [] ∧ s'.retries = some 2 := by
  obtain ⟨s1, e1, Q1, T1, R1, M1, SP1, RO1, HV1, HH1, FB1⟩ :=
    node_intent_frame o.parse1 o.parse2 (initState q)
  obtain ⟨s2, e2, Q2, T2, R2, M2, SP2, RO2, HV2, HH2, HI2, NS2, FB2⟩ :=
    node_rag_frame o.ragSearch s1
  obtain ⟨s3, e3, Q3, T3, R3, M3, SP3, RO3, HV3, HH3, HI3, NS3, FB3⟩ :=
    node_normalize_frame o.cal s2
  obtain ⟨s4, sp4, e4, Q4, T4, R4, M4, RO4, HV4, NS4, FB4, SP4⟩ :=
    node_generate_frame s3
  obtain ⟨s5, e5, Q5, T5, R5, M5, SP5, RO5, HV5, HH5, HI5, NS5, FB5⟩ :=
    node_execute_frame (o.execO 0) (o.topoExecO 0) s4
  have hhv5 : s5.have_rows = some false := by rw [HV5, hE]; rfl
  have hroute5 : route_after_execute s5 = .ok "zero" := route_zero_of_no_rows s5 hhv5
  have hr5 : s5.retries = some 0 := by rw [R5, R4, R3, R2, R1]
  obtain ⟨s6, e6, Q6, T6, R6, M6, SP6, RO6, HV6, HH6, FB6⟩ :=
    node_zero_first_frame (o.zeroO 0) s5 hr5
  have hretry6 : route_retry_or_end s6 = "retry" := route_retry_of_one s6 R6
  obtain ⟨s7, sp7, e7, Q7, T7, R7, M7, RO7, HV7, NS7, FB7, SP7⟩ :=
    node_generate_frame s6
  obtain ⟨s8, e8, Q8, T8, R8, M8, SP8, RO8, HV8, HH8, HI8, NS8, FB8⟩ :=
    node_execute_frame (o.execO 1) (o.topoExecO 1) s7
  have hhv8 : s8.have_rows = some false := by rw [HV8, hE]; rfl
  have hroute8 : route_after_execute s8 = .ok "zero" := route_zero_of_no_rows s8 hhv8
  have hr8 : s8.retries = some 1 := by rw [R8, R7, R6]
  obtain ⟨s9, ctx9, tag9, q9, e9, htag9, Q9, T9, R9, M9, SP9, RO9, HV9, CX9, HH9, FB9⟩ :=
    node_zero_second_frame (o.zeroO 1) s8 hr8
  have hgiveup9 : route_retry_or_end s9 = "giveup" := route_giveup_of_two s9 R9
  obtain ⟨s10, a10, e10, Q10, T10, R10, RO10, HH10, AN10⟩ :=
    node_answer_frame o.compose s9
  have hrun : runPipeline o q = .done s10 := by
    calc runPipeline o q = stepRun o 20 .intent 0 0 (initState q) := rfl
      _ = stepRun o 19 .rag 0 0 s1 := by rw [stepRun_intent_eq, e1]; rfl
      _ = stepRun o 18 .normalize 0 0 s2 := by rw [stepRun_rag_eq, e2]
      _ = stepRun o 17 .generate 0 0 s3 := by rw [stepRun_normalize_eq, e3]
      _ = stepRun o 16 .executeQ 0 0 s4 := by rw [stepRun_generate_eq, e4]
      _ = stepRun o 15 .zerorows 1 0 s5 := by
            rw [stepRun_execute_eq]; simp only [e5, hroute5]; rfl
      _ = stepRun o 14 .generate 1 1 s6 := by
            rw [stepRun_zerorows_eq]; simp only [e6, hretry6]; rfl
      _ = stepRun o 13 .executeQ 1 1 s7 := by rw [stepRun_generate_eq, e7]
      _ = stepRun o 12 .zerorows 2 1 s8 := by
            rw [stepRun_execute_eq]; simp only [e8, hroute8]; rfl
      _ = stepRun o 11 .answerStep 2 2 s9 := by
            rw [stepRun_zerorows_eq]; simp only [e9, hgiveup9]; rfl
      _ = .done s10 := by rw [stepRun_answer_eq]; simp only [e10]
  have htrace : s10.trace = some ["intent", "rag", "normalize_time", "generate_sparql",
      "execute_sparql", "route_zero_rows", "generate_sparql", "execute_sparql",
      "route_zero_rows", "answer"] := by
    simp [T10, T9, T8, T7, T6, T5, T4, T3, T2, T1, initState]
  have hrows : s10.rows = some [] := by
    rw [RO10, RO9, RO8, hE]
  have hret : s10.retries = some 2 := by rw [R10, R9]
  refine ⟨s10, hrun, ?_, ?_, ?_, hrows, hret⟩
  · rw [htrace]; decide
  · rw [htrace]; decide
  · rw [htrace]; decide

/-- Common tail of an escalation run: from the second build-query visit with
a non-empty fallback query in place, the run either ends right after the
second execution (rows found) with the history as accumulated, or performs
the second escalation appending one more tagged entry and gives up. -/
theorem c5_tail (o : Orc) (s6 s' : State) (hist0 : List (String × String))
    (hr6 : s6.retries = some 1)
    (hh6 : s6.sparql_history = some (hist0 ++
      [("level_1", llm_based_sparql_generation (o.zeroO 0).llm1)]))
    (hsk6 : optStrTruthy s6.sparql = true)
    (hstep : stepRun o 14 .generate 1 1 s6 = .done s') :
    (s'.sparql_history.getD [] = hist0 ++
       [("level_1", llm_based_sparql_generation (o.zeroO 0).llm1)] ∧
     s'.retries = some 1) ∨
    (∃ tag q2, (tag = "level_2" ∨ tag = "level_1_fallback") ∧
      s'.sparql_history.getD [] = hist0 ++
        [("level_1", llm_based_sparql_generation (o.zeroO 0).llm1), (tag, q2)] ∧
      s'.retries = some 2) := by
  have e7 : node_generate_sparql s6 = .ok (s6.pushTrace "generate_sparql") :=
    node_generate_skip s6 hsk6
  obtain ⟨s8, e8, Q8, T8, R8, M8, SP8, RO8, HV8, HH8, HI8, NS8, FB8⟩ :=
    node_execute_frame (o.execO 1) (o.topoExecO 1) (s6.pushTrace "generate_sparql")
  have hist8 : s8.sparql_history = some (hist0 ++
      [("level_1", llm_based_sparql_generation (o.zeroO 0).llm1)]) := by
    have h7 : (s6.pushTrace "generate_sparql").sparql_history = s6.sparql_history := rfl
    rw [HH8, h7, hh6]
  have hr8 : s8.retries = some 1 := by
    have h7 : (s6.pushTrace "generate_sparql").retries = s6.retries := rfl
    rw [R8, h7, hr6]
  have hpre : stepRun o 14 .generate 1 1 s6 =
      stepRun o 13 .executeQ 1 1 (s6.pushTrace "generate_sparql") := by
    rw [stepRun_generate_eq, e7]
  rw [hpre] at hstep
  by_cases hl : execRowsOf (o.execO 1) ((s6.pushTrace "generate_sparql").sparql.getD "") = []
  · -- second execution also empty: second escalation attempt then giveup
    have hhv8 : s8.have_rows = some false := by rw [HV8, hl]; rfl
    have hroute8 : route_after_execute s8 = .ok "zero" := route_zero_of_no_rows s8 hhv8
    obtain ⟨s9, ctx9, tag9, q9, e9, htag9, Q9, T9, R9, M9, SP9, RO9, HV9, CX9, HH9, FB9⟩ :=
      node_zero_second_frame (o.zeroO 1) s8 hr8
    have hgiveup9 : route_retry_or_end s9 = "giveup" := route_giveup_of_two s9 R9
    obtain ⟨s10, a10, e10, Q10, T10, R10, RO10, HH10, AN10⟩ :=
      node_answer_frame o.compose s9
    have hrun : stepRun o 13 .executeQ 1 1 (s6.pushTrace "generate_sparql") = .done s10 := by
      calc stepRun o 13 .executeQ 1 1 (s6.pushTrace "generate_sparql")
          = stepRun o 12 .zerorows 2 1 s8 := by
            rw [stepRun_execute_eq]; simp only [e8, hroute8]; rfl
        _ = stepRun o 11 .answerStep 2 2 s9 := by
            rw [stepRun_zerorows_eq]; simp only [e9, hgiveup9]; rfl
        _ = .done s10 := by rw [stepRun_answer_eq]; simp only [e10]
    rw [hrun] at hstep
    obtain rfl : s10 = s' := RunRes.done.inj hstep
    refine Or.inr ⟨tag9, q9, htag9, ?_, by rw [R10, R9]⟩
    rw [HH10, HH9, hist8]
    simp
  · -- second execution returns rows: straight to a terminal branch
    have hne : (execRowsOf (o.execO 1)
        ((s6.pushTrace "generate_sparql").sparql.getD "")).isEmpty = false := by
      cases hL : execRowsOf (o.execO 1) ((s6.pushTrace "generate_sparql").sparql.getD "") with
      | nil => exact absurd hL hl
      | cons a l => rfl
    have hhv8 : s8.have_rows = some true := by rw [HV8, hne]; rfl
    cases hroute : route_after_execute s8 with
    | error e =>
      have hcrash : stepRun o 13 .executeQ 1 1 (s6.pushTrace "generate_sparql") = .crash e := by
        rw [stepRun_execute_eq]
        simp only [e8, hroute]
      rw [hcrash] at hstep
      exact RunRes.noConfusion hstep
    | ok r =>
      have hfin : ∃ sF, stepRun o 13 .executeQ 1 1 (s6.pushTrace "generate_sparql") = .done sF ∧
          sF.sparql_history = s8.sparql_history ∧ sF.retries = s8.retries := by
        rcases route_values_pos s8 r hhv8 hroute with rfl | rfl | rfl
        · obtain ⟨s10, a10, e10, Q10, T10, R10, RO10, HH10, AN10⟩ :=
            node_answer_frame o.compose s8
          refine ⟨s10, ?_, HH10, R10⟩
          calc stepRun o 13 .executeQ 1 1 (s6.pushTrace "generate_sparql")
              = stepRun o 12 .answerStep 2 1 s8 := by
                rw [stepRun_execute_eq]; simp only [e8, hroute]; rfl
            _ = .done s10 := by rw [stepRun_answer_eq]; simp only [e10]
        · obtain ⟨s9, e9, Q9, T9, R9, RO9, HH9⟩ :=
            node_analyze_frame o.analyzeState o.analyzeFn s8
          obtain ⟨s10, a10, e10, Q10, T10, R10, RO10, HH10, AN10⟩ :=
            node_answer_frame o.compose s9
          refine ⟨s10, ?_, by rw [HH10, HH9], by rw [R10, R9]⟩
          calc stepRun o 13 .executeQ 1 1 (s6.pushTrace "generate_sparql")
              = stepRun o 12 .analyze 2 1 s8 := by
                rw [stepRun_execute_eq]; simp only [e8, hroute]; rfl
            _ = stepRun o 11 .answerStep 2 1 s9 := by
                rw [stepRun_analyze_eq]; simp only [e9]
            _ = .done s10 := by rw [stepRun_answer_eq]; simp only [e10]
        · obtain ⟨s9, e9, Q9, T9, R9, RO9, HH9⟩ :=
            node_analyze_pit_frame o.analyzePit s8
          obtain ⟨s10, a10, e10, Q10, T10, R10, RO10, HH10, AN10⟩ :=
            node_answer_frame o.compose s9
          refine ⟨s10, ?_, by rw [HH10, HH9], by rw [R10, R9]⟩
          calc stepRun o 13 .executeQ 1 1 (s6.pushTrace "generate_sparql")
              = stepRun o 12 .analyzePit 2 1 s8 := by
                rw [stepRun_execute_eq]; simp only [e8, hroute]; rfl
            _ = stepRun o 11 .answerStep 2 1 s9 := by
                rw [stepRun_analyzePit_eq]; simp only [e9]
            _ = .done s10 := by rw [stepRun_answer_eq]; simp only [e10]
      obtain ⟨sF, hrun, hFh, hFr⟩ := hfin
      rw [hrun] at hstep
      obtain rfl : sF = s' := RunRes.done.inj hstep
      exact Or.inl ⟨by rw [hFh, hist8]; rfl, by rw [hFr, hr8]⟩

/-- C5 (amended): for every request whose first query execution yields zero
rows, each escalation attempt that runs appends exactly one
(strategy_tag, query) entry to sparql_history.  When the initial template
generation succeeds, the strategy-tag sequence is a prefix of
[initial, level_1, level_2] or of [initial, level_1, level_1_fallback], with
1 + retries entries; when the default generator raises (an unhashable
`topology_intent` reaching `query_map.get`), the build-query node records no
`initial` entry at all, and the tag sequence is instead a prefix of
[level_1, level_2] or [level_1, level_1_fallback], with retries entries. -/
theorem escalation_history_prefix_unless_initial_raises (o : Orc) (q : String) (s' : State)
    (h0 : ∀ qry, execRowsOf (o.execO 0) qry = [])
    (hdone : runPipeline o q = .done s') :
    (∀ q0, (sparql_generate q (intentHints o.parse1)).2 = .ok q0 →
      ((∃ rest, (s'.sparql_history.getD []).map Prod.fst ++ rest =
          ["initial", "level_1", "level_2"]) ∨
       (∃ rest, (s'.sparql_history.getD []).map Prod.fst ++ rest =
          ["initial", "level_1", "level_1_fallback"])) ∧
      (s'.sparql_history.getD []).length = 1 + (s'.retries.getD 0).toNat) ∧
    (∀ e, (sparql_generate q (intentHints o.parse1)).2 = .error e →
      ((∃ rest, (s'.sparql_history.getD []).map Prod.fst ++ rest =
          ["level_1", "level_2"]) ∨
       (∃ rest, (s'.sparql_history.getD []).map Prod.fst ++ rest =
          ["level_1", "level_1_fallback"])) ∧
      (s'.sparql_history.getD []).length = (s'.retries.getD 0).toNat) := by
  obtain ⟨s1, e1, Q1, T1, R1, M1, SP1, RO1, HV1, HH1, FB1⟩ :=
    node_intent_frame o.parse1 o.parse2 (initState q)
  have HIN1 : s1.hints = some (intentHints o.parse1) :=
    node_intent_hints o.parse1 o.parse2 (initState q) s1 e1
  obtain ⟨s2, e2, Q2, T2, R2, M2, SP2, RO2, HV2, HH2, HI2, NS2, FB2⟩ :=
    node_rag_frame o.ragSearch s1
  obtain ⟨s3, e3, Q3, T3, R3, M3, SP3, RO3, HV3, HH3, HI3, NS3, FB3⟩ :=
    node_normalize_frame o.cal s2
  have hsp3 : optStrTruthy s3.sparql = false := by rw [SP3, SP2, SP1]; rfl
  have hq3 : s3.question = q := by rw [Q3, Q2, Q1]; rfl
  have hh3 : s3.hints = some (intentHints o.parse1) := by rw [HI3, HI2, HIN1]
  have hgen : (sparql_generate s3.question (s3.hints.getD {})).2
      = (sparql_generate q (intentHints o.parse1)).2 := by rw [hq3, hh3]; rfl
  cases hres : (sparql_generate q (intentHints o.parse1)).2 with
  | ok q0 =>
    constructor
    · intro q0h hok
      obtain rfl : q0 = q0h := Except.ok.inj hok
      obtain ⟨s4, e4, Q4, T4, R4, M4, SP4, RO4, HV4, HH4, NS4, FB4⟩ :=
        node_generate_fresh_frame s3 q0 hsp3 (hgen.trans hres)
      obtain ⟨s5, e5, Q5, T5, R5, M5, SP5, RO5, HV5, HH5, HI5, NS5, FB5⟩ :=
        node_execute_frame (o.execO 0) (o.topoExecO 0) s4
      have hhv5 : s5.have_rows = some false := by rw [HV5, h0]; rfl
      have hroute5 : route_after_execute s5 = .ok "zero" := route_zero_of_no_rows s5 hhv5
      have hr5 : s5.retries = some 0 := by rw [R5, R4, R3, R2, R1]
      obtain ⟨s6, e6, Q6, T6, R6, M6, SP6, RO6, HV6, HH6, FB6⟩ :=
        node_zero_first_frame (o.zeroO 0) s5 hr5
      have hretry6 : route_retry_or_end s6 = "retry" := route_retry_of_one s6 R6
      have hsk6 : optStrTruthy s6.sparql = true := by
        rw [SP6]
        simpa [optStrTruthy] using llm_based_ne_empty (o.zeroO 0).llm1
      have hh6 : s6.sparql_history = some ([("initial", q0)] ++
          [("level_1", llm_based_sparql_generation (o.zeroO 0).llm1)]) := by
        rw [HH6, HH5, HH4, HH3, HH2, HH1]
        simp [initState]
      have hrunpre : runPipeline o q = stepRun o 14 .generate 1 1 s6 := by
        calc runPipeline o q = stepRun o 20 .intent 0 0 (initState q) := rfl
          _ = stepRun o 19 .rag 0 0 s1 := by rw [stepRun_intent_eq, e1]; rfl
          _ = stepRun o 18 .normalize 0 0 s2 := by rw [stepRun_rag_eq, e2]
          _ = stepRun o 17 .generate 0 0 s3 := by rw [stepRun_normalize_eq, e3]
          _ = stepRun o 16 .executeQ 0 0 s4 := by rw [stepRun_generate_eq, e4]
          _ = stepRun o 15 .zerorows 1 0 s5 := by
                rw [stepRun_execute_eq]; simp only [e5, hroute5]; rfl
          _ = stepRun o 14 .generate 1 1 s6 := by
                rw [stepRun_zerorows_eq]; simp only [e6, hretry6]; rfl
      rw [hrunpre] at hdone
      rcases c5_tail o s6 s' [("initial", q0)] R6 hh6 hsk6 hdone with
        ⟨hh, hr⟩ | ⟨tag, q2, htag, hh, hr⟩
      · exact ⟨Or.inl ⟨["level_2"], by rw [hh]; rfl⟩, by rw [hh, hr]; rfl⟩
      · rcases htag with rfl | rfl
        · exact ⟨Or.inl ⟨[], by rw [hh]; rfl⟩, by rw [hh, hr]; rfl⟩
        · exact ⟨Or.inr ⟨[], by rw [hh]; rfl⟩, by rw [hh, hr]; rfl⟩
    · intro e he
      exact Except.noConfusion he
  | error e =>
    constructor
    · intro q0h hok
      exact Except.noConfusion hok
    · intro eh heh
      obtain ⟨s4, e4, Q4, T4, R4, M4, SP4, RO4, HV4, HH4, NS4, FB4⟩ :=
        node_generate_err_frame s3 e hsp3 (hgen.trans hres)
      obtain ⟨s5, e5, Q5, T5, R5, M5, SP5, RO5, HV5, HH5, HI5, NS5, FB5⟩ :=
        node_execute_frame (o.execO 0) (o.topoExecO 0) s4
      have hhv5 : s5.have_rows = some false := by rw [HV5, h0]; rfl
      have hroute5 : route_after_execute s5 = .ok "zero" := route_zero_of_no_rows s5 hhv5
      have hr5 : s5.retries = some 0 := by rw [R5, R4, R3, R2, R1]
      obtain ⟨s6, e6, Q6, T6, R6, M6, SP6, RO6, HV6, HH6, FB6⟩ :=
        node_zero_first_frame (o.zeroO 0) s5 hr5
      have hretry6 : route_retry_or_end s6 = "retry" := route_retry_of_one s6 R6
      have hsk6 : optStrTruthy s6.sparql = true := by
        rw [SP6]
        simpa [optStrTruthy] using llm_based_ne_empty (o.zeroO 0).llm1
      have hh6 : s6.sparql_history = some ([] ++
          [("level_1", llm_based_sparql_generation (o.zeroO 0).llm1)]) := by
        rw [HH6, HH5, HH4, HH3, HH2, HH1]
        simp [initState]
      have hrunpre : runPipeline o q = stepRun o 14 .generate 1 1 s6 := by
        calc runPipeline o q = stepRun o 20 .intent 0 0 (initState q) := rfl
          _ = stepRun o 19 .rag 0 0 s1 := by rw [stepRun_intent_eq, e1]; rfl
          _ = stepRun o 18 .normalize 0 0 s2 := by rw [stepRun_rag_eq, e2]
          _ = stepRun o 17 .generate 0 0 s3 := by rw [stepRun_normalize_eq, e3]
          _ = stepRun o 16 .executeQ 0 0 s4 := by rw [stepRun_generate_eq, e4]
          _ = stepRun o 15 .zerorows 1 0 s5 := by
                rw [stepRun_execute_eq]; simp only [e5, hroute5]; rfl
          _ = stepRun o 14 .generate 1 1 s6 := by
                rw [stepRun_zerorows_eq]; simp only [e6, hretry6]; rfl
      rw [hrunpre] at hdone
      rcases c5_tail o s6 s' [] R6 hh6 hsk6 hdone with
        ⟨hh, hr⟩ | ⟨tag, q2, htag, hh, hr⟩
      · exact ⟨Or.inl ⟨["level_2"], by rw [hh]; rfl⟩, by rw [hh, hr]; rfl⟩
      · rcases htag with rfl | rfl
        · exact ⟨Or.inl ⟨[], by rw [hh]; rfl⟩, by rw [hh, hr]; rfl⟩
        · exact ⟨Or.inr ⟨[], by rw [hh]; rfl⟩, by rw [hh, hr]; rfl⟩

/-! ## Concrete fixtures for witnesses and counterexamples -/

def calFix : Cal :=
  ⟨0, fun t => t, fun t _ => t, fun t => t, fun t _ => t, fun t => t,
   fun _ _ => none, fun _ => "1970-01-01T00:00"⟩

def llmOff : LLMO := ⟨false, .error .genericError⟩

/-- A parse oracle whose reply parses to an empty JSON object: the cleaned
hints then carry `question_type="other"` and an explicitly null
`time_range`. -/
def parseNullTR : ParseO :=
  ⟨.ok (some "prompt text"), true, .ok "llm reply", .error .genericError,
   fun _ => some {}, "/app/prompt/prompt.md"⟩

/-- A parse oracle whose prompt-file read raises. -/
def parseRaise : ParseO :=
  ⟨.error .runtimeError, false, .error .genericError, .error .genericError,
   fun _ => none, "/app/prompt/prompt.md"⟩

def execYields (vars : List String) (vals : List (List String)) : ExecO :=
  ⟨.ok (), fun _ => .ok ⟨vars, vals⟩, 7⟩

def execEmptyFix : ExecO := execYields [] []

/-- An executor whose graph load (`_get_graph`) raises. -/
def execGraphFail : ExecO := ⟨.error .runtimeError, fun _ => .ok ⟨[], []⟩, 0⟩

def zeroOff : ZeroO := ⟨llmOff, .error .genericError, llmOff, llmOff⟩

def orcCrashC1 : Orc :=
  { parse1 := parseNullTR
    parse2 := parseNullTR
    ragSearch := .error .genericError
    cal := calFix
    execO := fun _ => execYields ["room"] [["bldg:room_101"]]
    topoExecO := fun _ => execEmptyFix
    zeroO := fun _ => zeroOff
    analyzeState := .ok []
    analyzeFn := fun _ => .ok []
    analyzePit := .ok []
    compose := .ok "answer text" }

def orcCrashC2 : Orc :=
  { orcCrashC1 with execO := fun _ => execYields ["room", "pt"] [["bldg:room_201", "bldg:t_201"]] }

def orcEmptyFix : Orc := { orcCrashC1 with execO := fun _ => execEmptyFix }

theorem execEmptyFix_rows (qry : String) : execRowsOf execEmptyFix qry = [] := by
  unfold execRowsOf execute
  cases hc : basic_syntax_check qry <;> rfl

/-! ## Claim C1 -/

/-- C1 (amended): every step-handler node returns a Request State normally
for every collaborator outcome; when the wrapped collaborator raises, the
handler writes the safe default into its owned fields (`hints={}` and
`need_stats=False`; `context=""`; `rows=[]` with `have_rows=False`;
`analysis=[]` plus `analysis_error`; the apology answer), the handlers whose
bodies cannot raise (normalize-time, escalate-on-empty) also always return
normally, and build-query returns normally for every state, catching the
`TypeError` its template generator can raise (it then stores `sparql=""`).
This failure isolation is a property of the
nine handlers only; it does not extend to the routing functions, so it does
not by itself keep every request from surfacing a hard crash. -/
theorem step_handlers_never_propagate :
    (∀ (e : PyErr) la iv pd sj pp (o₂ : ParseO) (s : State),
       node_intent ⟨.error e, la, iv, pd, sj, pp⟩ o₂ s =
         .ok { (s.pushTrace "intent") with
               hints := some {}
               need_stats := some false
               retries := some 0
               max_retries := some 1 }) ∧
    (∀ (e : PyErr) (s : State),
       node_rag (.error e) s = .ok { (s.pushTrace "rag") with context := some "" }) ∧
    (∀ (cal : Cal) (s : State), ∃ s', node_normalize_time cal s = .ok s') ∧
    (∀ s : State, ∃ s', node_generate_sparql s = .ok s') ∧
    (∀ (eo teo : ExecO) (s : State), ∃ s', node_execute_sparql eo teo s = .ok s' ∧
       (∀ e, execute eo (s.sparql.getD "") = .error e →
          s'.rows = some [] ∧ s'.have_rows = some false)) ∧
    (∀ (zo : ZeroO) (s : State), ∃ s', node_route_zero_rows zo s = .ok s') ∧
    (∀ (e : PyErr) (oF : List String → Except PyErr (List PyV)) (s : State),
       node_analyze (.error e) oF s =
         .ok { (s.pushTrace "analyze") with
               analysis := some []
               analysis_error := some (some e.diag) }) ∧
    (∀ (e : PyErr) (s : State),
       node_analyze_point_in_time (.error e) s =
         .ok { (s.pushTrace "analyze_point_in_time") with
               analysis := some []
               analysis_error := some (some e.diag) }) ∧
    (∀ (e : PyErr) (s : State),
       node_answer (.error e) s = .ok { (s.pushTrace "answer") with answer := some APOLOGY }) := by
  refine ⟨?_, ?_, ?_, ?_, ?_, ?_, ?_, ?_, ?_⟩
  · intro e la iv pd sj pp o₂ s
    simp [node_intent, get_hints, llm_parse]
  · intro e s
    simp [node_rag]
  · intro cal s
    obtain ⟨s', h, _⟩ := node_normalize_frame cal s
    exact ⟨s', h⟩
  · intro s
    obtain ⟨s', _, h, _⟩ := node_generate_frame s
    exact ⟨s', h⟩
  · intro eo teo s
    obtain ⟨s', h, _, _, _, _, _, hro, hhv, _⟩ := node_execute_frame eo teo s
    refine ⟨s', h, ?_⟩
    intro e herr
    have hrows : execRowsOf eo (s.sparql.getD "") = [] := by
      unfold execRowsOf
      rw [herr]
    constructor
    · rw [hro, hrows]
    · rw [hhv, hrows]
      rfl
  · intro zo s
    simp only [node_route_zero_rows]
    repeat' split
    all_goals exact ⟨_, rfl⟩
  · intro e oF s
    simp [node_analyze, analysis_has_analyze_state]
  · intro e s
    simp [node_analyze_point_in_time]
  · intro e s
    simp [node_answer]

def sWithQuery : State :=
  { question := "q", sparql := some "SELECT ?s WHERE \x7b ?s ?p ?o \x7d" }

/-- Witness for C1: at a concrete state whose executor's graph load raises,
the execute handler still returns normally with `rows=[]`,
`have_rows=false`. -/
theorem step_handlers_never_propagate_witness :
    ∃ s', node_execute_sparql execGraphFail execGraphFail sWithQuery = .ok s' ∧
      s'.rows = some [] ∧ s'.have_rows = some false := by
  obtain ⟨-, -, -, -, c5, -⟩ := step_handlers_never_propagate
  obtain ⟨s', hok, himp⟩ := c5 execGraphFail execGraphFail sWithQuery
  have herr : execute execGraphFail (sWithQuery.sparql.getD "") = .error .runtimeError := rfl
  obtain ⟨h1, h2⟩ := himp .runtimeError herr
  exact ⟨s', hok, h1, h2⟩

set_option maxRecDepth 100000 in
/-- C1 counterexample: a complete request whose query returns a non-empty row
list while the hints carry an explicitly null `time_range` (the standard
no-API-key neutral-hints situation) ends in an uncaught `AttributeError`
raised by `route_after_execute` -- the request surfaces a hard crash, so the
"no request ever surfaces a hard crash" consequence of the claim is false. -/
theorem pipeline_crash_reachable :
    runPipeline orcCrashC1 "房间101的温度" = .crash .attributeError := rfl

/-! ## Claim C2 -/

set_option maxRecDepth 100000 in
/-- C2 counterexample: a request whose first execution already returns rows
(with a null `time_range` in the hints) never reaches the synthesize-answer
step at all -- it crashes in routing, refuting "for every request ... the
orchestrator reaches the synthesize-answer step". -/
theorem pipeline_crash_nonempty_rows :
    runPipeline orcCrashC2 "会议室的湿度" = .crash .attributeError := rfl

/-- Witness for C2: a concrete always-empty-rows request reaches the answer
step with exactly 2 execute-query invocations and retries = 2. -/
theorem pipeline_reaches_answer_on_empty_rows_witness :
    ∃ s', runPipeline orcEmptyFix "测试" = .done s' ∧
      (s'.trace.getD []).count "execute_sparql" = 2 ∧
      (s'.trace.getD []).count "execute_sparql" ≤ 3 ∧
      (s'.trace.getD []).getLast? = some "answer" ∧
      s'.rows = some [] ∧ s'.retries = some 2 :=
  pipeline_reaches_answer_on_empty_rows orcEmptyFix "测试" (fun _ qry => execEmptyFix_rows qry)

/-! ## Claim C3 -/

def stateNullTR : State :=
  { question := "客厅的温度"
    have_rows := some true
    rows := some [[("room", "bldg:room_1"), ("pt", "bldg:t_1")]]
    need_stats := some false
    retries := some 0
    max_retries := some 1
    hints := some (neutralHints "/app/prompt/prompt.md" "no-llm") }

/-- The router as the specification section 4.3 words it (this definition
follows the specification text, for comparison with `route_after_execute`,
which is translated from the code): a TOTAL decision table in which a
`time_range` without a `point_in_time` kind -- including an absent or
explicitly null `time_range` -- simply falls through to the statistics
check. -/
def route_after_execute_as_specified (s : State) : String :=
  let hints := hintsOr s.hints
  let qtype := hints.question_type.getD .noneV
  let timeRange := hints.time_range.getD (PyV.trV none none none none none none)
  let need := hints.need.getD .noneV
  let needOk := match need with | .listV l => !l.isEmpty | _ => false
  let kindIsPit :=
    match timeRange with
    | .trV k _ _ _ _ _ => (k.getD .noneV).eqStr "point_in_time"
    | _ => false
  if !(s.have_rows.getD false) then "zero"
  else if qtype.eqStr "topology" then "answer"
  else if kindIsPit then "analyze_point_in_time"
  else if (s.need_stats.getD false) || needOk then "analyze"
  else "answer"

def orcC3 : Orc :=
  { orcCrashC1 with execO := fun _ => execYields ["room"] [["bldg:room_7"]] }

set_option maxRecDepth 100000 in
/-- C3: the fixed decision order fails on the code.  For a Request State with
non-empty rows, a non-topology question type and an explicitly null
`time_range` -- exactly the neutral hints record of the no-LLM path -- the
total decision table of the specification decides `answer`, but
`route_after_execute` raises `AttributeError` (`None.get("kind")`) instead of
deciding; and the failing state is reachable: a complete concrete request
ends in exactly this uncaught `AttributeError`. -/
theorem route_after_execute_crashes_on_null_time_range :
    route_after_execute_as_specified stateNullTR = "answer" ∧
    route_after_execute stateNullTR = .error .attributeError ∧
    runPipeline orcC3 "走廊的温度" = .crash .attributeError :=
  ⟨rfl, rfl, rfl⟩

/-! ## Claim C4 -/

/-- C4: `route_retry_or_end` returns retry exactly when the retries counter
is strictly below the hard-coded bound 2 and giveup otherwise; its result is
invariant under arbitrary reassignment of the state's `max_retries` field;
and the intent step initializes `max_retries` to 1 (which the router never
consults). -/
theorem route_retry_fixed_bound_ignores_max_retries :
    (∀ s : State, (route_retry_or_end s = "retry" ↔ s.retries.getD 0 < 2)) ∧
    (∀ s : State, route_retry_or_end s = "retry" ∨ route_retry_or_end s = "giveup") ∧
    (∀ (s : State) (m : Option Int),
        route_retry_or_end { s with max_retries := m } = route_retry_or_end s) ∧
    (∀ (o₁ o₂ : ParseO) (s : State),
        ∃ s', node_intent o₁ o₂ s = .ok s' ∧ s'.max_retries = some 1) := by
  refine ⟨?_, ?_, ?_, ?_⟩
  · intro s
    unfold route_retry_or_end
    by_cases h : s.retries.getD 0 < (2 : Int)
    · simp [h]
    · simp [h]
  · intro s
    unfold route_retry_or_end
    by_cases h : s.retries.getD 0 < (2 : Int)
    · simp [h]
    · simp [h]
  · intro s m
    rfl
  · intro o₁ o₂ s
    obtain ⟨s', e, _, _, _, hm, _⟩ := node_intent_frame o₁ o₂ s
    exact ⟨s', e, hm⟩

/-! ## Claim C6 -/

/-- C6: if `sparql` is already non-empty when build-query runs, that
invocation returns the state with only the trace extended: `sparql` is
unchanged, nothing is appended to `sparql_history`, and the hints are not
touched (the default generator is not re-run). -/
theorem build_query_idempotent_skip (s : State) (h : optStrTruthy s.sparql = true) :
    node_generate_sparql s = .ok (s.pushTrace "generate_sparql") ∧
    (s.pushTrace "generate_sparql").sparql = s.sparql ∧
    (s.pushTrace "generate_sparql").sparql_history = s.sparql_history ∧
    (s.pushTrace "generate_sparql").hints = s.hints :=
  ⟨node_generate_skip s h, rfl, rfl, rfl⟩

def sPre : State :=
  { question := "演示问题"
    sparql := some "SELECT ?x WHERE \x7b ?x ?p ?o \x7d"
    sparql_history := some [("level_1", "Q0")] }

/-- Witness for C6 at a concrete pre-populated state. -/
theorem build_query_idempotent_skip_witness :
    node_generate_sparql sPre = .ok (sPre.pushTrace "generate_sparql") ∧
    (sPre.pushTrace "generate_sparql").sparql = sPre.sparql ∧
    (sPre.pushTrace "generate_sparql").sparql_history = sPre.sparql_history ∧
    (sPre.pushTrace "generate_sparql").hints = sPre.hints :=
  build_query_idempotent_skip sPre (by rfl)

/-! ## Claim C5 witness and counterexample -/

def c5Done : State :=
  match runPipeline orcEmptyFix "演示" with
  | .done s => s
  | _ => initState ""

set_option maxRecDepth 400000 in
/-- Witness for C5: at a concrete always-empty request whose initial template
generation succeeds, the history tags are a prefix of the allowed sequence,
one entry per attempt, starting with `initial`. -/
theorem escalation_history_prefix_unless_initial_raises_witness :
    ((∃ rest, (c5Done.sparql_history.getD []).map Prod.fst ++ rest =
        ["initial", "level_1", "level_2"]) ∨
     (∃ rest, (c5Done.sparql_history.getD []).map Prod.fst ++ rest =
        ["initial", "level_1", "level_1_fallback"])) ∧
    (c5Done.sparql_history.getD []).length = 1 + (c5Done.retries.getD 0).toNat :=
  (escalation_history_prefix_unless_initial_raises orcEmptyFix "演示" c5Done
      (fun qry => execEmptyFix_rows qry) rfl).1 (list_points_any 20) rfl

/-- A parse oracle whose reply parses to a topology question whose
`topology_intent` is a JSON list: the cleaning step of `llm_parse` passes the
non-string value through, so it reaches `query_map.get` in the topology
template generator and raises `TypeError` there. -/
def parseTopoList : ParseO :=
  ⟨.ok (some "prompt text"), true, .ok "llm reply", .error .genericError,
   fun _ => some { question_type := some (.strV "topology")
                   topology_intent := some (.listV [.strV "list_rooms"]) },
   "/app/prompt/prompt.md"⟩

def orcTopoList : Orc :=
  { orcEmptyFix with
    parse1 := parseTopoList
    parse2 := parseTopoList }

def c5BadDone : State :=
  match runPipeline orcTopoList "有哪些房间" with
  | .done s => s
  | _ => initState ""

set_option maxRecDepth 400000 in
/-- C5 counterexample: a concrete request whose first execution yields zero
rows (the trace shows escalation firing right after the first execute step)
completes with sparql_history tags ["level_1", "level_1_fallback"]: the
initial generation raised (list-valued `topology_intent`), so no
("initial", query) entry was recorded and the tag sequence is NOT a prefix of
[initial, level_1, (level_2|level_1_fallback)] -- the claim as stated is
false on this input. -/
theorem escalation_history_missing_initial :
    runPipeline orcTopoList "有哪些房间" = .done c5BadDone ∧
    c5BadDone.trace = some ["intent", "rag", "normalize_time", "generate_sparql",
      "execute_sparql", "route_zero_rows", "generate_sparql", "execute_sparql",
      "route_zero_rows", "answer"] ∧
    (c5BadDone.sparql_history.getD []).map Prod.fst = ["level_1", "level_1_fallback"] ∧
    ¬ ((∃ rest, (c5BadDone.sparql_history.getD []).map Prod.fst ++ rest =
          ["initial", "level_1", "level_2"]) ∨
       (∃ rest, (c5BadDone.sparql_history.getD []).map Prod.fst ++ rest =
          ["initial", "level_1", "level_1_fallback"])) := by
  have htags : (c5BadDone.sparql_history.getD []).map Prod.fst =
      ["level_1", "level_1_fallback"] := rfl
  refine ⟨rfl, rfl, htags, ?_⟩
  simp only [htags]
  rintro (⟨rest, h⟩ | ⟨rest, h⟩) <;> simp at h

/-! ## Claim C7 -/

/-- C7 counterexample: when the intent collaborator raises (here: the prompt
file read fails), `node_intent` stores the empty dict `{}`, not the neutral
record -- the `question_type` and `uncertain` keys are absent, whereas the
neutral record carries `question_type="other"` and `uncertain=true`. -/
theorem intent_failure_yields_empty_not_neutral :
    node_intent parseRaise parseRaise (initState "演示") =
      .ok { ((initState "演示").pushTrace "intent") with
            hints := some {}
            need_stats := some false
            retries := some 0
            max_retries := some 1 } ∧
    ({} : Hints).question_type = none ∧
    ({} : Hints).uncertain = none ∧
    (neutralHints "/app/prompt/prompt.md" "no-prompt").question_type = some (.strV "other") ∧
    (neutralHints "/app/prompt/prompt.md" "no-prompt").uncertain = some (.boolV true) :=
  ⟨rfl, rfl, rfl, rfl, rfl⟩

/-- C7 (amended): when the intent collaborator raises, the hints become the
empty record and need_stats false; when the collaborator returns but cannot
produce hints (missing prompt, unavailable model, failed calls, unparseable
reply), the hints are the neutral record, whose content is
`question_type="other"`, every other component empty or null, and
`uncertain=true`. -/
theorem intent_failure_modes :
    (∀ (e : PyErr) la iv pd sj pp (o₂ : ParseO) (s : State),
       node_intent ⟨.error e, la, iv, pd, sj, pp⟩ o₂ s =
         .ok { (s.pushTrace "intent") with
               hints := some {}
               need_stats := some false
               retries := some 0
               max_retries := some 1 }) ∧
    (∀ o : ParseO, o.promptLoad = .ok none →
        llm_parse o = .ok (neutralHints o.promptPath "no-prompt")) ∧
    (∀ (o : ParseO) (p : String), o.promptLoad = .ok (some p) → o.llmAvail = false →
        llm_parse o = .ok (neutralHints o.promptPath "no-llm")) ∧
    (∀ (o : ParseO) (p : String) (e₁ e₂ : PyErr), o.promptLoad = .ok (some p) →
        o.llmAvail = true → o.invoke = .error e₁ → o.predict = .error e₂ →
        llm_parse o = .ok (neutralHints o.promptPath "llm-error")) ∧
    (∀ (o : ParseO) (p t : String), o.promptLoad = .ok (some p) →
        o.llmAvail = true → o.invoke = .ok t → o.safeJson t = none →
        llm_parse o = .ok (neutralHints o.promptPath "parse-error")) ∧
    (∀ pp r, (neutralHints pp r).question_type = some (.strV "other") ∧
        (neutralHints pp r).topology_intent = some .noneV ∧
        (neutralHints pp r).need_stats = some (.boolV false) ∧
        (neutralHints pp r).need = some .noneV ∧
        (neutralHints pp r).room = some .noneV ∧
        (neutralHints pp r).metric = some .noneV ∧
        (neutralHints pp r).time_range = some .noneV ∧
        (neutralHints pp r).uncertain = some (.boolV true) ∧
        (neutralHints pp r).ambiguities = some (.listV [])) := by
  refine ⟨?_, ?_, ?_, ?_, ?_, ?_⟩
  · intro e la iv pd sj pp o₂ s
    simp [node_intent, get_hints, llm_parse]
  · intro o h
    simp [llm_parse, h]
  · intro o p h1 h2
    simp [llm_parse, h1, h2]
  · intro o p e₁ e₂ h1 h2 h3 h4
    simp [llm_parse, h1, h2, h3, h4]
  · intro o p t h1 h2 h3 h4
    simp [llm_parse, h1, h2, h3, h4]
  · intro pp r
    exact ⟨rfl, rfl, rfl, rfl, rfl, rfl, rfl, rfl, rfl⟩

def parseNoPrompt : ParseO :=
  ⟨.ok none, false, .error .genericError, .error .genericError, fun _ => none, "pp"⟩

def parseNoLLM : ParseO :=
  ⟨.ok (some "prompt"), false, .error .genericError, .error .genericError, fun _ => none, "pp"⟩

def parseLLMErr : ParseO :=
  ⟨.ok (some "prompt"), true, .error .genericError, .error .runtimeError, fun _ => none, "pp"⟩

def parseBadJson : ParseO :=
  ⟨.ok (some "prompt"), true, .ok "unparseable", .error .genericError, fun _ => none, "pp"⟩

/-- Witness for C7 at the four concrete cannot-produce-hints oracles. -/
theorem intent_failure_modes_witness :
    llm_parse parseNoPrompt = .ok (neutralHints "pp" "no-prompt") ∧
    llm_parse parseNoLLM = .ok (neutralHints "pp" "no-llm") ∧
    llm_parse parseLLMErr = .ok (neutralHints "pp" "llm-error") ∧
    llm_parse parseBadJson = .ok (neutralHints "pp" "parse-error") := by
  obtain ⟨-, c2, c3, c4, c5, -⟩ := intent_failure_modes
  exact ⟨c2 parseNoPrompt rfl, c3 parseNoLLM "prompt" rfl rfl,
         c4 parseLLMErr "prompt" .genericError .runtimeError rfl rfl rfl rfl,
         c5 parseBadJson "prompt" "unparseable" rfl rfl rfl rfl⟩

/-! ## Claim C8 -/

theorem mapM_eq_map_of_ok {α β : Type} (f : α → Except PyErr β) (g : α → β) :
    ∀ l : List α, (∀ r ∈ l, f r = .ok (g r)) → l.mapM f = .ok (l.map g) := by
  intro l
  induction l with
  | nil => intro _; rfl
  | cons a t ih =>
    intro h
    rw [List.mapM_cons, h a (List.mem_cons_self a t),
        ih (fun r hr => h r (List.mem_cons_of_mem a hr))]
    rfl

theorem mapM_err_cause {α β : Type} (f : α → Except PyErr β)
    (hf : ∀ r, (∃ x, f r = .ok x) ∨ f r = .error .indexError) :
    ∀ (l : List α) (e : PyErr), l.mapM f = .error e → e = .indexError := by
  intro l
  induction l with
  | nil => intro e h; exact Except.noConfusion h
  | cons a t ih =>
    intro e h
    rw [List.mapM_cons] at h
    rcases hf a with ⟨x, hx⟩ | hx
    · rw [hx] at h
      cases hm : t.mapM f with
      | ok xs => rw [hm] at h; exact absurd h (by simp [Bind.bind, Except.bind, pure, Except.pure])
      | error e' =>
        rw [hm] at h
        have : e' = e := by
          simpa [Bind.bind, Except.bind] using h
        exact this ▸ ih e' hm
    · rw [hx] at h
      have : PyErr.indexError = e := by
        simpa [Bind.bind, Except.bind] using h
      exact this.symm

/-- C8 counterexample: with a syntactically plausible query, a failing graph
load (`_get_graph` raises while parsing the TTL file) propagates out of
`execute` instead of returning the empty list. -/
theorem execute_raises_on_graph_load_failure :
    execute execGraphFail "SELECT ?s WHERE \x7b ?s ?p ?o \x7d" = .error .runtimeError := rfl

/-- C8 (amended): `execute` fails closed for query-level failures -- a query
rejected by the basic syntax check and an engine error during `g.query` both
yield `.ok []` -- but it is not exception-free: an uncaught error can escape,
and exactly when the syntax check passed and either the graph load
(`_get_graph`, outside the `try`) raised that error, or a result row was
shorter than the variable list (`IndexError` in the row comprehension). -/
theorem rowBuild_cases (vars : List String) (r : List String) :
    (∃ x, rowBuild vars r = .ok x) ∨ rowBuild vars r = .error .indexError := by
  unfold rowBuild
  cases hv : (if vars.isEmpty then none else some vars) with
  | none => exact Or.inl ⟨_, rfl⟩
  | some vs =>
    by_cases hlen : r.length < vs.length
    · exact Or.inr (by simp [buildItem, hlen, Except.map])
    · exact Or.inl ⟨norm_row (vs.zip r), by simp [buildItem, hlen, Except.map]⟩

theorem execute_fails_closed_characterization (eo : ExecO) (q : String) :
    (basic_syntax_check q = false → execute eo q = .ok []) ∧
    (∀ e, eo.graphLoad = .ok () → eo.queryRun q = .error e → execute eo q = .ok []) ∧
    (∀ e, execute eo q = .error e →
        basic_syntax_check q = true ∧ (eo.graphLoad = .error e ∨ e = .indexError)) := by
  refine ⟨?_, ?_, ?_⟩
  · intro h
    simp [execute, h]
  · intro e hg hr
    simp [execute, hg, hr]
  · intro e h
    cases hchk : basic_syntax_check q with
    | false => rw [execute, hchk] at h; exact absurd h (by simp)
    | true =>
      refine ⟨rfl, ?_⟩
      rw [execute, hchk] at h
      simp only [Bool.not_true, Bool.false_eq_true, if_false] at h
      cases hg : eo.graphLoad with
      | error eg =>
        simp only [hg] at h
        have he : eg = e := Except.error.inj h
        exact Or.inl (he ▸ rfl)
      | ok u =>
        cases u
        simp only [hg] at h
        cases hr : eo.queryRun q with
        | error er => simp only [hr] at h; exact absurd h (by simp)
        | ok qres =>
          simp only [hr] at h
          cases hm : qres.results.mapM (rowBuild qres.vars) with
          | error e' =>
            simp only [hm] at h
            have he : e' = e := Except.error.inj h
            exact Or.inr (he ▸ mapM_err_cause (rowBuild qres.vars)
              (fun r => rowBuild_cases qres.vars r) qres.results e' hm)
          | ok rows =>
            simp only [hm] at h
            cases rows with
            | nil => exact absurd h (by simp)
            | cons r rest => exact absurd h (by simp)

def execRunErr : ExecO := ⟨.ok (), fun _ => .error .valueError, 0⟩

/-- Witness for C8: a bracket-unbalanced query and an engine error both fail
closed on concrete executors, and the graph-load failure case instantiates
the error characterization. -/
theorem execute_fails_closed_characterization_witness :
    execute execRunErr "(" = .ok [] ∧
    execute execRunErr "SELECT ?s WHERE \x7b ?s ?p ?o \x7d" = .ok [] ∧
    (basic_syntax_check "SELECT ?s WHERE \x7b ?s ?p ?o \x7d" = true ∧
      (execGraphFail.graphLoad = .error .runtimeError ∨ PyErr.runtimeError = .indexError)) := by
  refine ⟨?_, ?_, ?_⟩
  · exact (execute_fails_closed_characterization execRunErr "(").1 rfl
  · exact (execute_fails_closed_characterization execRunErr
      "SELECT ?s WHERE \x7b ?s ?p ?o \x7d").2.1 .valueError rfl rfl
  · exact (execute_fails_closed_characterization execGraphFail
      "SELECT ?s WHERE \x7b ?s ?p ?o \x7d").2.2 .runtimeError rfl

/-! ## Claim C9 -/

/-- C9 counterexample: the no-constraint label emitted by the code is the
Chinese `（无时间限定）`, not the literal `"(no time constraint)"` stated by
the claim (an English gloss); the rest of the claimed window does hold. -/
theorem no_time_label_is_chinese :
    normalize_time calFix ({} : Hints) = ⟨none, none, "（无时间限定）", true, none⟩ ∧
    (normalize_time calFix ({} : Hints)).label ≠ "(no time constraint)" := by
  exact ⟨rfl, by decide⟩

/-- C9 (amended): for every hints record whose time_range is absent,
explicitly null, falsy, or a dict with no recognized kind, time-window
normalization returns start_local=null, end_local=null, the (Chinese)
no-time-constraint label, ok=true and a null error field -- it never invents
a default window. -/
theorem normalize_no_window_on_absent_kind (cal : Cal) (h : Hints)
    (habs : h.time_range = none ∨ h.time_range = some PyV.noneV ∨
      ∃ k da ho st en atF, h.time_range = some (.trV k da ho st en atF) ∧
        (k.getD .noneV).eqStr "relative_days" = false ∧
        (k.getD .noneV).eqStr "last_hours" = false ∧
        (k.getD .noneV).eqStr "absolute" = false ∧
        (k.getD .noneV).eqStr "point_in_time" = false) :
    normalize_time cal h = ⟨none, none, NO_TIME_LABEL, true, none⟩ := by
  rcases habs with h0 | h0 | ⟨k, da, ho, st, en, atF, h0, h1, h2, h3, h4⟩
  · simp [normalize_time, h0, PyV.truthy, PyV.eqStr]
  · simp [normalize_time, h0, PyV.truthy, PyV.eqStr]
  · by_cases ht : (PyV.trV k da ho st en atF).truthy = true
    · simp [normalize_time, h0, ht, h1, h2, h3, h4]
    · have ht' : (PyV.trV k da ho st en atF).truthy = false := by
        cases hb : (PyV.trV k da ho st en atF).truthy
        · rfl
        · exact absurd hb ht
      simp [normalize_time, h0, ht', PyV.eqStr]

/-- Witness for C9 at the three concrete shapes: absent key, explicit null,
and an unrecognized kind string. -/
theorem normalize_no_window_on_absent_kind_witness :
    normalize_time calFix ({} : Hints) = ⟨none, none, NO_TIME_LABEL, true, none⟩ ∧
    normalize_time calFix { time_range := some PyV.noneV } =
      ⟨none, none, NO_TIME_LABEL, true, none⟩ ∧
    normalize_time calFix
        { time_range := some (.trV (some (.strV "all_day")) none none none none none) } =
      ⟨none, none, NO_TIME_LABEL, true, none⟩ := by
  refine ⟨normalize_no_window_on_absent_kind calFix {} (Or.inl rfl),
          normalize_no_window_on_absent_kind calFix _ (Or.inr (Or.inl rfl)),
          normalize_no_window_on_absent_kind calFix _ (Or.inr (Or.inr ?_))⟩
  exact ⟨some (.strV "all_day"), none, none, none, none, none, rfl, rfl, rfl, rfl, rfl⟩

/-! ## Claim C10 -/

theorem dictGet_dictSet_self (r : Row) (k v : String) :
    dictGet (dictSet r k v) k = some v := by
  induction r with
  | nil => simp [dictSet, dictGet]
  | cons p t ih =>
    by_cases hp : (p.fst == k) = true
    · simp [dictSet, dictGet, hp]
    · have hp' : (p.fst == k) = false := by
        cases hb : (p.fst == k)
        · rfl
        · exact absurd hb hp
      simp [dictSet, dictGet, hp', ih]

theorem dictGet_dictSet_ne (r : Row) (k v k' : String) (h : (k' == k) = false) :
    dictGet (dictSet r k v) k' = dictGet r k' := by
  have hkk : (k == k') = false := by
    refine beq_eq_false_iff_ne.mpr (fun he => ?_)
    rw [he] at h
    simp at h
  induction r with
  | nil => simp [dictSet, dictGet, hkk]
  | cons p t ih =>
    obtain ⟨pa, pb⟩ := p
    by_cases hp : (pa == k) = true
    · have hpk : pa = k := by simpa using hp
      subst hpk
      simp [dictSet, dictGet, hkk]
    · have hp' : (pa == k) = false := by
        cases hb : (pa == k)
        · rfl
        · exact absurd hb hp
      simp [dictSet, dictGet, hp', ih]

theorem dictGet_foldl_absent (k : String) :
    ∀ (item : Row) (init : Row), (∀ p ∈ item, (k == p.fst) = false) →
      dictGet (item.foldl (fun acc p => dictSet acc p.fst p.snd) init) k = dictGet init k := by
  intro item
  induction item with
  | nil => intro init _; rfl
  | cons p t ih =>
    intro init hmem
    rw [List.foldl_cons,
        ih (dictSet init p.fst p.snd) (fun r hr => hmem r (List.mem_cons_of_mem p hr))]
    exact dictGet_dictSet_ne init p.fst p.snd k (hmem p (List.mem_cons_self p t))

theorem dictGet_normAlias_absent (out : Row) (k : String)
    (hout : dictGet out k = none) (hts : (k == "tsid") = false) :
    dictGet (normAlias out) k = none := by
  unfold normAlias
  split
  · split
    · rw [dictGet_dictSet_ne _ _ _ _ hts]
      exact hout
    · exact hout
  · exact hout

theorem dictGet_norm_row_absent (item : Row) (k : String)
    (hmem : ∀ p ∈ item, (k == p.fst) = false) (hts : (k == "tsid") = false) :
    dictGet (norm_row item) k = none :=
  dictGet_normAlias_absent _ k (dictGet_foldl_absent k item [] hmem) hts

/-- Value form of a successfully built row. -/
def rowValue (vars : List String) (r : List String) : Row :=
  if vars.isEmpty then norm_row (r.mapIdx (fun i v => ("col" ++ toString i, v)))
  else norm_row (vars.zip r)

theorem rowBuild_ok_of_len (vars : List String) (r : List String)
    (h : vars.length ≤ r.length) : rowBuild vars r = .ok (rowValue vars r) := by
  unfold rowBuild rowValue
  cases hv : vars.isEmpty with
  | true => simp
  | false =>
    have hlen : ¬ r.length < vars.length := by omega
    simp [buildItem, hlen, Except.map]

theorem colKey_ne (t : String) : (("col" ++ t) == "__elapsed_ms") = false := by
  refine beq_eq_false_iff_ne.mpr (fun h => ?_)
  have hd : ('c' :: 'o' :: 'l' :: t.data) = "__elapsed_ms".data := congrArg String.data h
  injection hd with h1 _
  exact absurd h1 (by decide)

/-- C10: with a loadable graph and a successful engine run whose result rows
are at least as long as the variable list, `execute` adds the key
`__elapsed_ms` to the first returned row, holding the elapsed milliseconds as
a string; when the engine result is empty no row is returned at all; and when
`__elapsed_ms` is not among the query's variables, the key was absent from
the first row before the annotation, i.e. it is a field the query itself did
not bind. -/
theorem elapsed_ms_added_to_first_row (eo : ExecO) (q : String) (qres : QRes)
    (hchk : basic_syntax_check q = true)
    (hload : eo.graphLoad = .ok ())
    (hrun : eo.queryRun q = .ok qres)
    (hwf : ∀ r ∈ qres.results, qres.vars.length ≤ r.length) :
    (qres.results = [] → execute eo q = .ok []) ∧
    (∀ r rs, qres.results = r :: rs →
       (∃ rest, execute eo q =
          .ok (dictSet (rowValue qres.vars r) "__elapsed_ms" (toString eo.elapsedMs) :: rest)) ∧
       dictGet (dictSet (rowValue qres.vars r) "__elapsed_ms" (toString eo.elapsedMs))
           "__elapsed_ms" = some (toString eo.elapsedMs) ∧
       ((∀ v ∈ qres.vars, ("__elapsed_ms" == v) = false) →
          dictGet (rowValue qres.vars r) "__elapsed_ms" = none)) := by
  have hmap : qres.results.mapM (rowBuild qres.vars) =
      .ok (qres.results.map (rowValue qres.vars)) :=
    mapM_eq_map_of_ok (rowBuild qres.vars) (rowValue qres.vars) qres.results
      (fun r hr => rowBuild_ok_of_len qres.vars r (hwf r hr))
  constructor
  · intro hempty
    rw [execute, hchk]
    rw [hempty] at hmap
    simp only [Bool.not_true, Bool.false_eq_true, if_false, hload, hrun, hempty, hmap]
    rfl
  · intro r rs hcons
    refine ⟨⟨(rs.map (rowValue qres.vars)), ?_⟩, dictGet_dictSet_self _ _ _, ?_⟩
    · rw [execute, hchk]
      rw [hcons] at hmap
      simp only [Bool.not_true, Bool.false_eq_true, if_false, hload, hrun, hcons, hmap]
      rfl
    · intro hnb
      unfold rowValue
      cases hv : qres.vars.isEmpty with
      | true =>
        simp only [if_true]
        refine dictGet_norm_row_absent _ _ ?_ (by decide)
        intro p hp
        rw [List.mapIdx_eq_enum_map] at hp
        obtain ⟨⟨i, a⟩, _, hpa⟩ := List.mem_map.mp hp
        have : p.fst = "col" ++ toString i := by
          rw [← hpa]
          rfl
        rw [this]
        have := colKey_ne (toString i)
        simpa [BEq.comm] using this
      | false =>
        simp only [Bool.false_eq_true, if_false]
        refine dictGet_norm_row_absent _ _ ?_ (by decide)
        intro p hp
        obtain ⟨a, b⟩ := p
        exact hnb a (List.of_mem_zip hp).1

def qresC10 : QRes := ⟨["room", "tsid"], [["bldg:r1", "ts.1"], ["bldg:r2", "ts.2"]]⟩

def execC10 : ExecO := ⟨.ok (), fun _ => .ok qresC10, 7⟩

/-- Witness for C10 at a concrete two-row result: the first row gains
`__elapsed_ms = "7"`, a key the query did not bind. -/
theorem elapsed_ms_added_to_first_row_witness :
    (∃ rest, execute execC10 "SELECT ?room ?tsid WHERE \x7b ?room ?p ?o \x7d" =
        .ok (dictSet (rowValue ["room", "tsid"] ["bldg:r1", "ts.1"]) "__elapsed_ms" "7"
          :: rest)) ∧
    dictGet (dictSet (rowValue ["room", "tsid"] ["bldg:r1", "ts.1"]) "__elapsed_ms" "7")
      "__elapsed_ms" = some "7" ∧
    dictGet (rowValue ["room", "tsid"] ["bldg:r1", "ts.1"]) "__elapsed_ms" = none := by
  have h := (elapsed_ms_added_to_first_row execC10
      "SELECT ?room ?tsid WHERE \x7b ?room ?p ?o \x7d" qresC10 rfl rfl rfl
      (by decide)).2 ["bldg:r1", "ts.1"] [["bldg:r2", "ts.2"]] rfl
  exact ⟨h.1, h.2.1, h.2.2 (by decide)⟩

end RagGraph
